import Mathlib

/-!
# Verification of the ShabdX layered translation services

Shallow embedding of the repository's translation core:

* `FallbackTranslationService` (OnlineTranslation/FallbackTranslation module):
  the dictionary/pattern resolution engine — `translate`, `translateComplexText`,
  `translateParagraph`, `translateSentence`, `translatePhrase`, `translateWord`,
  `applyPatternRules` and the static `translations` table.
* `OfflineTranslationService`, in both of its variants present in the repository:
  the one at `src/services/OfflineTranslation.ts` (modelled with suffix `N`) and
  the larger variant (modelled with suffix `P2`).

JS strings are modelled as Lean `String` (lists of characters); the handful of
JS-specific behaviours that matter are modelled explicitly:

* property reads on object literals with duplicate keys take the LAST occurrence
  (`lookupLast`), iteration order keeps the FIRST occurrence position (`jsKeys`);
* `if (obj[k])` guards are truthy — an empty-string value acts as a missing key
  (`getT`);
* `String.prototype.replace` with a string/non-global pattern replaces only the
  first occurrence (`replaceFirstL`), a `/g` regex replaces all (`replaceAllL`);
* `split(/\s+/)` and friends keep empty pieces at the edges (`splitRuns`,
  `splitEach`);
* `Date.now()` is passed in explicitly as an integer `now` (milliseconds);
  `localStorage` is an explicit key/value list threaded through the state.
-/

namespace ShabdX

/-- A translation dictionary: the literal key/value sequence of a JS object or `Map`. -/
abbrev Lexicon := List (String × String)

/-! ## JS string primitives -/

/-- Characters matched by the JS `\s` class and removed by `trim` (ASCII subset,
sufficient for every string occurring in this repository). -/
def isWsC (c : Char) : Bool :=
  c = ' ' || c = '\t' || c = '\n' || c = '\r' || c = '\x0b' || c = '\x0c'

/-- Drop leading whitespace (`\s*`). -/
def dropWsL (l : List Char) : List Char := l.dropWhile isWsC

/-- Core of JS `trim`. -/
def trimList (l : List Char) : List Char :=
  ((l.dropWhile isWsC).reverse.dropWhile isWsC).reverse

/-- JS `String.prototype.trim`. -/
def trimS (s : String) : String := ⟨trimList s.data⟩

/-- JS `String.prototype.toLowerCase` (ASCII case folding; every cased character
relevant to the claims is ASCII). -/
def lowerS (s : String) : String := ⟨s.data.map Char.toLower⟩

/-- JS own-property read on an object literal: with duplicate literal keys the
last occurrence wins.  A miss on an `Object.prototype` member name still reads
back an inherited value in JS; that is modelled by `objReadJS` further below, and
an own entry shadows it. -/
def lookupLast (d : Lexicon) (k : String) : Option String :=
  ((d.filter (fun p => p.1 = k)).getLast?).map (fun p => p.2)

/-- JS truthy own-property guard `if (obj[k]) ...`: an empty-string value behaves
like a missing key.  Prototype-inherited hits are modelled by `exactHitJS` further
below; on keys that are not `Object.prototype` members the two agree
(`exactHitJS_eq_getT`). -/
def getT (d : Lexicon) (k : String) : Option String :=
  match lookupLast d k with
  | some v => if v = "" then none else some v
  | none => none

/-- `Object.keys` order: each key once, at the position of its first occurrence. -/
def jsKeys (d : Lexicon) : List String :=
  (d.map (fun p => p.1)).foldl (fun acc k => if acc.contains k then acc else acc ++ [k]) []

/-- `Object.entries` of a JS object literal: first-occurrence positions, last-occurrence
values. -/
def entriesJS (d : Lexicon) : Lexicon :=
  (jsKeys d).map (fun k => (k, (lookupLast d k).getD ""))

/-- Does `needle` occur as a contiguous segment of `hay`? -/
def isSubL (needle : List Char) : List Char → Bool
  | [] => needle.isEmpty
  | c :: rest => needle.isPrefixOf (c :: rest) || isSubL needle rest

/-- JS `String.prototype.includes`. -/
def containsS (hay needle : String) : Bool := isSubL needle.data hay.data

/-- Split on maximal runs of characters satisfying `p` (JS `split(/X+/)` for a
character class `X`), keeping empty pieces at the edges. -/
def splitRuns (p : Char → Bool) : List Char → List (List Char)
  | [] => [[]]
  | c :: rest =>
    let r := splitRuns p rest
    if p c then
      match rest with
      | c2 :: _ => if p c2 then r else [] :: r
      | [] => [] :: r
    else
      match r with
      | h :: t => (c :: h) :: t
      | [] => [[c]]

/-- Split at every single character satisfying `p` (JS `split(/X/)` for a character
class `X`), keeping empty pieces. -/
def splitEach (p : Char → Bool) : List Char → List (List Char)
  | [] => [[]]
  | c :: rest =>
    let r := splitEach p rest
    if p c then [] :: r
    else
      match r with
      | h :: t => (c :: h) :: t
      | [] => [[c]]

/-- JS `split(/\s+/)`. -/
def jsSplitWs (l : List Char) : List (List Char) := splitRuns isWsC l

/-- JS `split(/\r?\n/)`: a lone carriage return does not separate lines. -/
def splitCRLFL : List Char → List (List Char)
  | [] => [[]]
  | '\n' :: rest => [] :: splitCRLFL rest
  | '\r' :: '\n' :: rest => [] :: splitCRLFL rest
  | c :: rest =>
    match splitCRLFL rest with
    | h :: t => (c :: h) :: t
    | [] => [[c]]

/-- JS `Array.prototype.join`. -/
def joinWith (sep : String) : List String → String
  | [] => ""
  | h :: t => t.foldl (fun acc x => acc ++ sep ++ x) h

/-- JS `String.prototype.replace` with a plain-string (or non-global literal regex)
pattern: replace the first occurrence only; with no occurrence the input is returned
unchanged; an empty pattern matches at position 0. -/
def replaceFirstL (pat rep : List Char) : List Char → List Char
  | [] => if pat = [] then rep else []
  | c :: rest =>
    if pat.isPrefixOf (c :: rest) then rep ++ (c :: rest).drop pat.length
    else c :: replaceFirstL pat rep rest

/-- Helper for `replaceAllL`, structurally recursive on a fuel argument (the fuel,
initially the input length, never runs out because each step consumes at least one
character). -/
def replaceAllGo (pat rep : List Char) : Nat → List Char → List Char
  | _, [] => []
  | 0, l => l
  | fuel + 1, c :: rest =>
    if !pat.isEmpty && pat.isPrefixOf (c :: rest) then
      rep ++ replaceAllGo pat rep fuel ((c :: rest).drop pat.length)
    else
      c :: replaceAllGo pat rep fuel rest

/-- JS `String.prototype.replace` with a `/g` regex whose pattern is a literal:
replace every (non-overlapping, left-to-right) occurrence. -/
def replaceAllL (pat rep l : List Char) : List Char := replaceAllGo pat rep l.length l

/-- JS `text.replace(new RegExp(literal, 'i'), rep)`: case-insensitive first
occurrence (the pattern strings fed to it in this repository contain no regex
metacharacters). -/
def replaceFirstCIL (pat rep : List Char) : List Char → List Char
  | [] => if pat = [] then rep else []
  | c :: rest =>
    if (pat.map Char.toLower).isPrefixOf ((c :: rest).map Char.toLower) then
      rep ++ (c :: rest).drop pat.length
    else c :: replaceFirstCIL pat rep rest

/-- Helper for `collapseWsL`: the flag records whether we are inside a whitespace run
that has already been emitted as a single space. -/
def collapseGo : Bool → List Char → List Char
  | _, [] => []
  | inRun, c :: rest =>
    if isWsC c then
      if inRun then collapseGo true rest
      else
        match rest with
        | c2 :: _ => if isWsC c2 then ' ' :: collapseGo true rest else c :: collapseGo false rest
        | [] => [c]
    else c :: collapseGo false rest

/-- JS `replace(/\s{2,}/g, ' ')`: collapse every run of two or more whitespace
characters into a single space (a lone whitespace character is kept as it is). -/
def collapseWsL (l : List Char) : List Char := collapseGo false l

/-- Number of `'\n'` characters (`\r\n` contains exactly one of them, so this counts
the `\r?\n` line breaks of a text with no stray bare `\n`-free `\r`s contributing). -/
def countNL (s : String) : Nat := s.data.count '\n'

/-! ## FallbackTranslationService: character classes -/

/-- The sentence-terminator class of `isParagraph`/`isSentence`/`splitIntoSentences`:
period, exclamation and question mark, the Devanagari dandas and the fullwidth bar. -/
def isTermC (c : Char) : Bool :=
  c = '.' || c = '!' || c = '?' || c = '।' || c = '॥' || c = '｜'

/-- The delimiter class of `splitIntoMeaningfulChunks`: comma, semicolon, colon,
round/square/curly brackets, double quote, apostrophe (code 39), backtick (code 96)
and the Devanagari danda. -/
def isDelimC (c : Char) : Bool :=
  c = ',' || c = ';' || c = ':' || c = '(' || c = ')' || c = '[' || c = ']' ||
  c = Char.ofNat 123 || c = Char.ofNat 125 || c = '"' || c = Char.ofNat 39 ||
  c = Char.ofNat 96 || c = '।'

/-- Models the JS Unicode property classes for letters and digits (used by
`translateWord` to strip punctuation) on the character repertoire of this
repository: ASCII alphanumerics are letters/digits, other ASCII characters are not,
and of the non-ASCII characters appearing in the repository only the Devanagari
dandas and the fullwidth bar are not letters/digits. -/
def isLetterOrDigitU (c : Char) : Bool :=
  c.isAlphanum || (0x80 <= c.toNat && !(c = '।' || c = '॥' || c = '｜'))

/-! ## FallbackTranslationService: the static `translations` table -/

/-- `translations['en-hi']` from FallbackTranslationService (effective value: later duplicate
pair keys in the object literal overwrite earlier ones). -/
def dEnHi : Lexicon := [
  ("hello", "नमस्ते"),
  ("hi", "हैलो"),
  ("goodbye", "अलविदा"),
  ("bye", "बाय"),
  ("thank you", "धन्यवाद"),
  ("thanks", "धन्यवाद"),
  ("sorry", "माफ करें"),
  ("please", "कृपया"),
  ("yes", "हाँ"),
  ("no", "नहीं"),
  ("ok", "ठीक है"),
  ("okay", "ठीक है"),
  ("good", "अच्छा"),
  ("bad", "बुरा"),
  ("water", "पानी"),
  ("food", "खाना"),
  ("eat", "खाना"),
  ("home", "घर"),
  ("house", "घर"),
  ("school", "स्कूल"),
  ("work", "काम"),
  ("job", "नौकरी"),
  ("time", "समय"),
  ("money", "पैसा"),
  ("friend", "दोस्त"),
  ("family", "परिवार"),
  ("love", "प्रेम"),
  ("like", "पसंद"),
  ("want", "चाहते हैं"),
  ("need", "जरूरत"),
  ("come", "आओ"),
  ("go", "जाओ"),
  ("see", "देखो"),
  ("look", "देखो"),
  ("give", "दो"),
  ("take", "लो"),
  ("help", "मदद"),
  ("stop", "रुको"),
  ("wait", "इंतज़ार करो"),
  ("morning", "सुबह"),
  ("evening", "शाम"),
  ("night", "रात"),
  ("day", "दिन"),
  ("today", "आज"),
  ("tomorrow", "कल"),
  ("yesterday", "कल"),
  ("now", "अभी"),
  ("here", "यहाँ"),
  ("there", "वहाँ"),
  ("where", "कहाँ"),
  ("what", "क्या"),
  ("who", "कौन"),
  ("when", "कब"),
  ("why", "क्यों"),
  ("how", "कैसे"),
  ("i", "मैं"),
  ("you", "आप"),
  ("he", "वह"),
  ("she", "वह"),
  ("we", "हम"),
  ("they", "वे"),
  ("my", "मेरा"),
  ("your", "आपका"),
  ("his", "उसका"),
  ("her", "उसका"),
  ("am", "हूँ"),
  ("is", "है"),
  ("are", "हैं"),
  ("was", "था"),
  ("were", "थे"),
  ("will", "होगा"),
  ("can", "सकते हैं"),
  ("could", "सकते थे"),
  ("should", "चाहिए"),
  ("and", "और"),
  ("or", "या"),
  ("but", "लेकिन"),
  ("if", "अगर"),
  ("then", "तो"),
  ("how are you", "आप कैसे हैं"),
  ("how are you?", "आप कैसे हैं?"),
  ("what is your name", "आपका नाम क्या है"),
  ("my name is", "मेरा नाम है"),
  ("nice to meet you", "आपसे मिलकर खुशी हुई"),
  ("see you later", "बाद में मिलते हैं"),
  ("good morning", "शुभ प्रभात"),
  ("good evening", "शुभ संध्या"),
  ("good night", "शुभ रात्रि"),
  ("excuse me", "माफ करिए"),
  ("i love you", "मैं आपसे प्रेम करता हूँ"),
  ("i am fine", "मैं ठीक हूँ"),
  ("i am good", "मैं अच्छा हूँ")]

/-- `translations['hi-en']` from FallbackTranslationService (effective value: later duplicate
pair keys in the object literal overwrite earlier ones). -/
def dHiEn : Lexicon := [
  ("नमस्ते", "hello"),
  ("हैलो", "hi"),
  ("अलविदा", "goodbye"),
  ("बाय", "bye"),
  ("धन्यवाद", "thank you"),
  ("माफ करें", "sorry"),
  ("कृपया", "please"),
  ("हाँ", "yes"),
  ("नहीं", "no"),
  ("ठीक है", "okay"),
  ("अच्छा", "good"),
  ("बुरा", "bad"),
  ("पानी", "water"),
  ("खाना", "food"),
  ("घर", "home"),
  ("स्कूल", "school"),
  ("काम", "work"),
  ("समय", "time"),
  ("पैसा", "money"),
  ("दोस्त", "friend"),
  ("परिवार", "family"),
  ("प्रेम", "love"),
  ("पसंद", "like"),
  ("चाहते हैं", "want"),
  ("जरूरत", "need"),
  ("आओ", "come"),
  ("जाओ", "go"),
  ("देखो", "see"),
  ("दो", "give"),
  ("लो", "take"),
  ("मदद", "help"),
  ("रुको", "stop"),
  ("आज", "today"),
  ("कल", "tomorrow"),
  ("यहाँ", "here"),
  ("वहाँ", "there"),
  ("क्या", "what"),
  ("कौन", "who"),
  ("मैं", "i"),
  ("आप", "you"),
  ("वह", "he"),
  ("हम", "we"),
  ("वे", "they"),
  ("और", "and"),
  ("या", "or"),
  ("लेकिन", "but"),
  ("अगर", "if")]

/-- `translations['en-es']` from FallbackTranslationService (effective value: later duplicate
pair keys in the object literal overwrite earlier ones). -/
def dEnEs : Lexicon := [
  ("hello", "hola"),
  ("hi", "hola"),
  ("thank you", "gracias"),
  ("sorry", "lo siento"),
  ("please", "por favor"),
  ("yes", "sí"),
  ("no", "no"),
  ("water", "agua"),
  ("food", "comida"),
  ("home", "casa"),
  ("school", "escuela"),
  ("work", "trabajo"),
  ("time", "tiempo"),
  ("money", "dinero"),
  ("friend", "amigo"),
  ("family", "familia"),
  ("love", "amor")]

/-- `translations['es-en']` from FallbackTranslationService (effective value: later duplicate
pair keys in the object literal overwrite earlier ones). -/
def dEsEn : Lexicon := [
  ("hola", "hello"),
  ("gracias", "thank you"),
  ("lo siento", "sorry"),
  ("por favor", "please"),
  ("sí", "yes"),
  ("no", "no"),
  ("agua", "water"),
  ("comida", "food"),
  ("casa", "home"),
  ("escuela", "school"),
  ("trabajo", "work"),
  ("tiempo", "time"),
  ("dinero", "money"),
  ("amigo", "friend"),
  ("familia", "family"),
  ("amor", "love")]

/-- `translations['en-fr']` from FallbackTranslationService (effective value: later duplicate
pair keys in the object literal overwrite earlier ones). -/
def dEnFr : Lexicon := [
  ("hello", "bonjour"),
  ("hi", "salut"),
  ("goodbye", "au revoir"),
  ("thank you", "merci"),
  ("thanks", "merci"),
  ("sorry", "désolé"),
  ("please", "s'il vous plaît"),
  ("yes", "oui"),
  ("no", "non"),
  ("water", "eau"),
  ("food", "nourriture"),
  ("home", "maison"),
  ("house", "maison"),
  ("school", "école"),
  ("work", "travail"),
  ("job", "emploi"),
  ("time", "temps"),
  ("money", "argent"),
  ("friend", "ami"),
  ("family", "famille"),
  ("love", "amour"),
  ("happiness", "bonheur"),
  ("sadness", "tristesse"),
  ("health", "santé"),
  ("education", "éducation")]

/-- `translations['fr-en']` from FallbackTranslationService (effective value: later duplicate
pair keys in the object literal overwrite earlier ones). -/
def dFrEn : Lexicon := [
  ("bonjour", "hello"),
  ("salut", "hi"),
  ("au revoir", "goodbye"),
  ("merci", "thank you"),
  ("désolé", "sorry"),
  ("s'il vous plaît", "please"),
  ("oui", "yes"),
  ("non", "no"),
  ("eau", "water"),
  ("nourriture", "food"),
  ("maison", "home"),
  ("école", "school"),
  ("travail", "work"),
  ("emploi", "job"),
  ("temps", "time"),
  ("argent", "money"),
  ("ami", "friend"),
  ("famille", "family"),
  ("amour", "love"),
  ("bonheur", "happiness"),
  ("tristesse", "sadness"),
  ("santé", "health"),
  ("éducation", "education")]

/-- `translations['en-pt']` from FallbackTranslationService (effective value: later duplicate
pair keys in the object literal overwrite earlier ones). -/
def dEnPt : Lexicon := [
  ("hello", "olá"),
  ("hi", "oi"),
  ("goodbye", "tchau"),
  ("thank you", "obrigado"),
  ("thanks", "obrigado"),
  ("sorry", "desculpa"),
  ("please", "por favor"),
  ("yes", "sim"),
  ("no", "não"),
  ("water", "água"),
  ("food", "comida"),
  ("home", "casa"),
  ("house", "casa"),
  ("school", "escola"),
  ("work", "trabalho"),
  ("job", "trabalho"),
  ("time", "tempo"),
  ("money", "dinheiro"),
  ("friend", "amigo"),
  ("family", "família"),
  ("love", "amor"),
  ("happiness", "felicidade"),
  ("sadness", "tristeza"),
  ("health", "saúde"),
  ("education", "educação")]

/-- `translations['pt-en']` from FallbackTranslationService (effective value: later duplicate
pair keys in the object literal overwrite earlier ones). -/
def dPtEn : Lexicon := [
  ("olá", "hello"),
  ("oi", "hi"),
  ("tchau", "goodbye"),
  ("obrigado", "thank you"),
  ("desculpa", "sorry"),
  ("por favor", "please"),
  ("sim", "yes"),
  ("não", "no"),
  ("água", "water"),
  ("comida", "food"),
  ("casa", "home"),
  ("escola", "school"),
  ("trabalho", "work"),
  ("tempo", "time"),
  ("dinheiro", "money"),
  ("amigo", "friend"),
  ("família", "family"),
  ("amor", "love"),
  ("felicidade", "happiness"),
  ("tristeza", "sadness"),
  ("saúde", "health"),
  ("educação", "education")]

/-- `translations['en-ne']` from FallbackTranslationService (effective value: later duplicate
pair keys in the object literal overwrite earlier ones). -/
def dEnNe : Lexicon := [
  ("hello", "नमस्ते"),
  ("hi", "नमस्ते"),
  ("goodbye", "बिदाई"),
  ("thank you", "धन्यवाद"),
  ("thanks", "धन्यवाद"),
  ("sorry", "माफ गर्नुहोस्"),
  ("please", "कृपया"),
  ("yes", "हो"),
  ("no", "होइन"),
  ("water", "पानी"),
  ("food", "खाना"),
  ("home", "घर"),
  ("house", "घर"),
  ("school", "विद्यालय"),
  ("work", "काम"),
  ("job", "काम"),
  ("time", "समय"),
  ("money", "पैसा"),
  ("friend", "मित्र"),
  ("family", "परिवार"),
  ("love", "प्रेम"),
  ("happiness", "खुशी"),
  ("sadness", "दुःख"),
  ("health", "स्वास्थ्य"),
  ("education", "शिक्षा")]

/-- `translations['ne-en']` from FallbackTranslationService (effective value: later duplicate
pair keys in the object literal overwrite earlier ones). -/
def dNeEn : Lexicon := [
  ("नमस्ते", "Hello"),
  ("बिदाई", "Goodbye"),
  ("धन्यवाद", "Thank you"),
  ("माफ गर्नुहोस्", "Sorry"),
  ("कृपया", "Please"),
  ("हो", "Yes"),
  ("होइन", "No"),
  ("पानी", "Water"),
  ("खाना", "Food"),
  ("घर", "Home"),
  ("विद्यालय", "School"),
  ("काम", "Work"),
  ("समय", "Time"),
  ("पैसा", "Money"),
  ("मित्र", "Friend"),
  ("परिवार", "Family"),
  ("प्रेम", "Love"),
  ("खुशी", "Happiness"),
  ("दुःख", "Sadness"),
  ("स्वास्थ्य", "Health"),
  ("शिक्षा", "Education")]

/-- `translations['en-si']` from FallbackTranslationService (effective value: later duplicate
pair keys in the object literal overwrite earlier ones). -/
def dEnSi : Lexicon := [
  ("hello", "ආයුබෝවන්"),
  ("hi", "ආයුබෝවන්"),
  ("goodbye", "ගිහින් එන්න"),
  ("thank you", "ස්තූතියි"),
  ("thanks", "ස්තූතියි"),
  ("sorry", "සමාවන්න"),
  ("please", "කරුණාකර"),
  ("yes", "ඔව්"),
  ("no", "නැහැ"),
  ("water", "වතුර"),
  ("food", "කෑම"),
  ("home", "ගෙදර"),
  ("house", "ගෙදර"),
  ("school", "පාසල"),
  ("work", "වැඩ"),
  ("job", "රැකියාව"),
  ("time", "වෙලාව"),
  ("money", "පිසු"),
  ("friend", "යාළුවා"),
  ("family", "පවුල"),
  ("love", "ආදරය"),
  ("happiness", "සතුට"),
  ("sadness", "දුක"),
  ("health", "සෞඛ්‍යය"),
  ("education", "අධ්‍යාපනය"),
  ("good morning", "සුභ උදෑසනක්"),
  ("good evening", "සුභ සන්ධ්‍යාවක්"),
  ("good night", "සුභ රාත්‍රියක්"),
  ("how are you", "ඔයා කොහොමද"),
  ("my name is", "මගේ නම"),
  ("nice to meet you", "ඔයාව මුණගැසීම සතුටක්")]

/-- `translations['si-en']` from FallbackTranslationService (effective value: later duplicate
pair keys in the object literal overwrite earlier ones). -/
def dSiEn : Lexicon := [
  ("ආයුබෝවන්", "Hello"),
  ("ගිහින් එන්න", "Goodbye"),
  ("ස්තූතියි", "Thank you"),
  ("සමාවන්න", "Sorry"),
  ("කරුණාකර", "Please"),
  ("ඔව්", "Yes"),
  ("නැහැ", "No"),
  ("වතුර", "Water"),
  ("කෑම", "Food"),
  ("ගෙදර", "Home"),
  ("පාසල", "School"),
  ("වැඩ", "Work"),
  ("රැකියාව", "Job"),
  ("වෙලාව", "Time"),
  ("පිසු", "Money"),
  ("යාළුවා", "Friend"),
  ("පවුල", "Family"),
  ("ආදරය", "Love"),
  ("සතුට", "Happiness"),
  ("දුක", "Sadness"),
  ("සෞන්‍යය", "Health"),
  ("අධ්‍යාපනය", "Education"),
  ("සුභ උදෑසනක්", "Good morning"),
  ("සුභ සන්ධ්‍යාවක්", "Good evening"),
  ("සුභ රාත්‍රියක්", "Good night"),
  ("ඔයා කොහොමද", "How are you"),
  ("මගේ නම", "My name is"),
  ("මම සිංහල කතා කරනවා", "I speak Sinhala"),
  ("ඔයාව මුණගැසීම සතුටක්", "Nice to meet you"),
  ("මේක කීයද", "How much is this")]

/-- `translations['en-de']` from FallbackTranslationService (effective value: later duplicate
pair keys in the object literal overwrite earlier ones). -/
def dEnDe : Lexicon := [
  ("hello", "hallo"),
  ("hi", "hallo"),
  ("goodbye", "auf wiedersehen"),
  ("thank you", "danke"),
  ("thanks", "danke"),
  ("sorry", "entschuldigung"),
  ("please", "bitte"),
  ("yes", "ja"),
  ("no", "nein"),
  ("water", "wasser"),
  ("food", "essen"),
  ("home", "zuhause"),
  ("house", "haus"),
  ("school", "schule"),
  ("work", "arbeit"),
  ("job", "job"),
  ("time", "zeit"),
  ("money", "geld"),
  ("friend", "freund"),
  ("family", "familie"),
  ("love", "liebe"),
  ("happiness", "glück"),
  ("sadness", "traurigkeit"),
  ("health", "gesundheit"),
  ("education", "bildung")]

/-- `translations['de-en']` from FallbackTranslationService (effective value: later duplicate
pair keys in the object literal overwrite earlier ones). -/
def dDeEn : Lexicon := [
  ("hallo", "hello"),
  ("auf wiedersehen", "goodbye"),
  ("danke", "thank you"),
  ("entschuldigung", "sorry"),
  ("bitte", "please"),
  ("ja", "yes"),
  ("nein", "no"),
  ("wasser", "water"),
  ("essen", "food"),
  ("zuhause", "home"),
  ("haus", "house"),
  ("schule", "school"),
  ("arbeit", "work"),
  ("job", "job"),
  ("zeit", "time"),
  ("geld", "money"),
  ("freund", "friend"),
  ("familie", "family"),
  ("liebe", "love"),
  ("glück", "happiness"),
  ("traurigkeit", "sadness"),
  ("gesundheit", "health"),
  ("bildung", "education")]

/-- `translations['en-bn']` from FallbackTranslationService (effective value: later duplicate
pair keys in the object literal overwrite earlier ones). -/
def dEnBn : Lexicon := [
  ("hello", "হ্যালো"),
  ("hi", "হাই"),
  ("goodbye", "বিদায়"),
  ("thank you", "ধন্যবাদ"),
  ("thanks", "ধন্যবাদ"),
  ("sorry", "দুঃখিত"),
  ("please", "অনুগ্রহ করে"),
  ("yes", "হ্যাঁ"),
  ("no", "না"),
  ("water", "পানি"),
  ("food", "খাবার"),
  ("home", "বাড়ি"),
  ("house", "বাড়ি"),
  ("school", "স্কুল"),
  ("work", "কাজ"),
  ("job", "চাকরি"),
  ("time", "সময়"),
  ("money", "টাকা"),
  ("friend", "বন্ধু"),
  ("family", "পরিবার"),
  ("love", "ভালোবাসা"),
  ("happiness", "খুশি"),
  ("sadness", "দুঃখ"),
  ("health", "স্বাস্থ্য"),
  ("education", "শিক্ষা")]

/-- `translations['bn-en']` from FallbackTranslationService (effective value: later duplicate
pair keys in the object literal overwrite earlier ones). -/
def dBnEn : Lexicon := [
  ("হ্যালো", "hello"),
  ("হাই", "hi"),
  ("বিদায়", "goodbye"),
  ("ধন্যবাদ", "thank you"),
  ("দুঃখিত", "sorry"),
  ("অনুগ্রহ করে", "please"),
  ("হ্যাঁ", "yes"),
  ("না", "no"),
  ("পানি", "water"),
  ("খাবার", "food"),
  ("বাড়ি", "home"),
  ("স্কুল", "school"),
  ("কাজ", "work"),
  ("চাকরি", "job"),
  ("সময়", "time"),
  ("টাকা", "money"),
  ("বন্ধু", "friend"),
  ("পরিবার", "family"),
  ("ভালোবাসা", "love"),
  ("খুশি", "happiness"),
  ("দুঃখ", "sadness"),
  ("স্বাস্থ্য", "health"),
  ("শিক্ষা", "education")]

/-- `translations['en-ta']` from FallbackTranslationService (effective value: later duplicate
pair keys in the object literal overwrite earlier ones). -/
def dEnTa : Lexicon := [
  ("hello", "வணக்கம்"),
  ("hi", "ஹாய்"),
  ("goodbye", "பிரியாவிடை"),
  ("thank you", "நன்றி"),
  ("thanks", "நன்றி"),
  ("sorry", "மன்னிக்கவும்"),
  ("please", "தயவுசெய்து"),
  ("yes", "ஆம்"),
  ("no", "இல்லை"),
  ("water", "தண்ணீர்"),
  ("food", "உணவு"),
  ("home", "வீடு"),
  ("house", "வீடு"),
  ("school", "பள்ளி"),
  ("work", "வேலை"),
  ("job", "வேலை"),
  ("time", "நேரம்"),
  ("money", "பணம்"),
  ("friend", "நண்பர்"),
  ("family", "குடும்பம்"),
  ("love", "அன்பு"),
  ("happiness", "மகிழ்ச்சி"),
  ("sadness", "துக்கம்"),
  ("health", "உடல்நலம்"),
  ("education", "கல்வி")]

/-- `translations['ta-en']` from FallbackTranslationService (effective value: later duplicate
pair keys in the object literal overwrite earlier ones). -/
def dTaEn : Lexicon := [
  ("வணக்கம்", "hello"),
  ("ஹாய்", "hi"),
  ("பிரியாவிடை", "goodbye"),
  ("நன்றி", "thank you"),
  ("மன்னிக்கவும்", "sorry"),
  ("தயவுசெய்து", "please"),
  ("ஆம்", "yes"),
  ("இல்லை", "no"),
  ("தண்ணீர்", "water"),
  ("உணவு", "food"),
  ("வீடு", "home"),
  ("பள்ளி", "school"),
  ("வேலை", "work"),
  ("நேரம்", "time"),
  ("பணம்", "money"),
  ("நண்பர்", "friend"),
  ("குடும்பம்", "family"),
  ("அன்பு", "love"),
  ("மகிழ்ச்சி", "happiness"),
  ("துக்கம்", "sadness"),
  ("உடல்நலம்", "health"),
  ("கல்வி", "education")]

/-- `translations['en-te']` from FallbackTranslationService (effective value: later duplicate
pair keys in the object literal overwrite earlier ones). -/
def dEnTe : Lexicon := [
  ("hello", "హలో"),
  ("hi", "హాయ్"),
  ("thank you", "ధన్యవాదాలు"),
  ("sorry", "క్షమించండి"),
  ("please", "దయచేసి"),
  ("yes", "అవును"),
  ("no", "లేదు"),
  ("water", "నీరు"),
  ("food", "ఆహారం"),
  ("home", "ఇల్లు")]

/-- `translations['te-en']` from FallbackTranslationService (effective value: later duplicate
pair keys in the object literal overwrite earlier ones). -/
def dTeEn : Lexicon := [
  ("హలో", "hello"),
  ("హాయ్", "hi"),
  ("ధన్యవాదాలు", "thank you"),
  ("క్షమించండి", "sorry")]

/-- `translations['en-ur']` from FallbackTranslationService (effective value: later duplicate
pair keys in the object literal overwrite earlier ones). -/
def dEnUr : Lexicon := [
  ("hello", "ہیلو"),
  ("hi", "سلام"),
  ("thank you", "شکریہ"),
  ("sorry", "معاف کریں"),
  ("please", "براہ کرم"),
  ("yes", "ہاں"),
  ("no", "نہیں"),
  ("water", "پانی"),
  ("food", "کھانا"),
  ("home", "گھر")]

/-- `translations['ur-en']` from FallbackTranslationService (effective value: later duplicate
pair keys in the object literal overwrite earlier ones). -/
def dUrEn : Lexicon := [
  ("ہیلو", "hello"),
  ("سلام", "hi"),
  ("شکریہ", "thank you"),
  ("معاف کریں", "sorry")]

/-- `translations['en-zh']` from FallbackTranslationService (effective value: later duplicate
pair keys in the object literal overwrite earlier ones). -/
def dEnZh : Lexicon := [
  ("hello", "你好"),
  ("hi", "嗨"),
  ("thank you", "謝謝"),
  ("sorry", "對不起"),
  ("please", "請"),
  ("yes", "是"),
  ("no", "不是"),
  ("water", "水"),
  ("food", "食物"),
  ("home", "家")]

/-- `translations['zh-en']` from FallbackTranslationService (effective value: later duplicate
pair keys in the object literal overwrite earlier ones). -/
def dZhEn : Lexicon := [
  ("你好", "hello"),
  ("嗨", "hi"),
  ("謝謝", "thank you"),
  ("對不起", "sorry")]

/-- `translations['en-ja']` from FallbackTranslationService (effective value: later duplicate
pair keys in the object literal overwrite earlier ones). -/
def dEnJa : Lexicon := [
  ("hello", "こんにちは"),
  ("hi", "やあ"),
  ("thank you", "ありがとう"),
  ("sorry", "ごめんなさい"),
  ("please", "お願いします"),
  ("yes", "はい"),
  ("no", "いいえ"),
  ("water", "水"),
  ("food", "食べ物"),
  ("home", "家")]

/-- `translations['ja-en']` from FallbackTranslationService (effective value: later duplicate
pair keys in the object literal overwrite earlier ones). -/
def dJaEn : Lexicon := [
  ("こんにちは", "hello"),
  ("やあ", "hi"),
  ("ありがとう", "thank you"),
  ("ごめんなさい", "sorry")]

/-- `translations['en-ko']` from FallbackTranslationService (effective value: later duplicate
pair keys in the object literal overwrite earlier ones). -/
def dEnKo : Lexicon := [
  ("hello", "안녕하세요"),
  ("hi", "안녕"),
  ("thank you", "감사합니다"),
  ("sorry", "죄송합니다"),
  ("please", "제발"),
  ("yes", "네"),
  ("no", "아니오"),
  ("water", "물"),
  ("food", "음식"),
  ("home", "집")]

/-- `translations['ko-en']` from FallbackTranslationService (effective value: later duplicate
pair keys in the object literal overwrite earlier ones). -/
def dKoEn : Lexicon := [
  ("안녕하세요", "hello"),
  ("안녕", "hi"),
  ("감사합니다", "thank you"),
  ("죄송합니다", "sorry")]

/-- `translations['en-ar']` from FallbackTranslationService (effective value: later duplicate
pair keys in the object literal overwrite earlier ones). -/
def dEnAr : Lexicon := [
  ("hello", "مرحبا"),
  ("hi", "أهلا"),
  ("thank you", "شكرا"),
  ("sorry", "آسف"),
  ("please", "من فضلك"),
  ("yes", "نعم"),
  ("no", "لا"),
  ("water", "ماء"),
  ("food", "طعام"),
  ("home", "منزل")]

/-- `translations['ar-en']` from FallbackTranslationService (effective value: later duplicate
pair keys in the object literal overwrite earlier ones). -/
def dArEn : Lexicon := [
  ("مرحبا", "hello"),
  ("أهلا", "hi"),
  ("شكرا", "thank you"),
  ("آسف", "sorry")]

/-- `translations['en-ru']` from FallbackTranslationService (effective value: later duplicate
pair keys in the object literal overwrite earlier ones). -/
def dEnRu : Lexicon := [
  ("hello", "привет"),
  ("hi", "привет"),
  ("thank you", "спасибо"),
  ("sorry", "извините"),
  ("please", "пожалуйста"),
  ("yes", "да"),
  ("no", "нет"),
  ("water", "вода"),
  ("food", "еда"),
  ("home", "дом")]

/-- `translations['ru-en']` from FallbackTranslationService (effective value: later duplicate
pair keys in the object literal overwrite earlier ones). -/
def dRuEn : Lexicon := [
  ("привет", "hello"),
  ("спасибо", "thank you"),
  ("извините", "sorry"),
  ("пожалуйста", "please")]

/-- The effective `this.translations` object of FallbackTranslationService, as an
association list: each pair key appears once (JS object-literal semantics resolve the
duplicated `en-es`, `es-en`, `en-pt`, `pt-en`, `en-fr` and `fr-en` blocks to the later
one), in first-occurrence order. -/
def translationsList : List (String × Lexicon) := [
  ("en-hi", dEnHi),
  ("hi-en", dHiEn),
  ("en-es", dEnEs),
  ("es-en", dEsEn),
  ("en-fr", dEnFr),
  ("fr-en", dFrEn),
  ("en-pt", dEnPt),
  ("pt-en", dPtEn),
  ("en-ne", dEnNe),
  ("ne-en", dNeEn),
  ("en-si", dEnSi),
  ("si-en", dSiEn),
  ("en-de", dEnDe),
  ("de-en", dDeEn),
  ("en-bn", dEnBn),
  ("bn-en", dBnEn),
  ("en-ta", dEnTa),
  ("ta-en", dTaEn),
  ("en-te", dEnTe),
  ("te-en", dTeEn),
  ("en-ur", dEnUr),
  ("ur-en", dUrEn),
  ("en-zh", dEnZh),
  ("zh-en", dZhEn),
  ("en-ja", dEnJa),
  ("ja-en", dJaEn),
  ("en-ko", dEnKo),
  ("ko-en", dKoEn),
  ("en-ar", dEnAr),
  ("ar-en", dArEn),
  ("en-ru", dEnRu),
  ("ru-en", dRuEn)]

/-- `this.translations[key]`: the property read on the effective object. -/
def translationsTable (key : String) : Option Lexicon :=
  (translationsList.find? (fun p => p.1 = key)).map (fun p => p.2)

/-! ## FallbackTranslationService: pattern rules

The `patternRules` table maps a language-pair key to an ordered list of
regex/template rules.  Every regex in the source has the same shape, captured by
`PatRule` and interpreted by `ruleMatch`:

  `^ (\s*)? ((?:\s*(?:hello|hi)[,!]?\s+)?)? PRE (\s+(.+?))? (SEP POST)? TAIL $`

* `lead` — whether the regex starts with `\s*`;
* `greet` — whether the optional greeting prefix group is present;
* `pre` — the literal words before the capture, separated by `\s+`
  (matched case-insensitively, as all rules carry the `i` flag);
* `cap` — whether a lazy capture `(.+?)` follows (preceded by `\s+`);
* `postSep` — whether the literal after the capture is preceded by `\s+`
  (true) or `\s*` (false);
* `post` — the literal words after the capture;
* `punct` — the single optional trailing punctuation class of the tail
  (`[.!?]?\s*$`, `\s*[।]?\s*$`, `\s*\??\s*$` or `\s*$`);
* `template` — the replacement template with `$1` placeholders.

JS lazy `(.+?)` semantics are reproduced by `capScan`: the shortest capture that
lets the rest of the regex match wins, and `.` does not match line terminators. -/

structure PatRule where
  lead : Bool
  greet : Bool
  pre : List String
  cap : Bool
  postSep : Bool
  post : List String
  punct : List Char
  template : String

/-- Case-insensitive literal match, returning the remainder. -/
def matchCIL (w : List Char) (l : List Char) : Option (List Char) :=
  if (w.map Char.toLower).isPrefixOf (l.map Char.toLower) then some (l.drop w.length)
  else none

/-- `\s+`: at least one whitespace character, consumed greedily. -/
def ws1 (l : List Char) : Option (List Char) :=
  match l with
  | c :: rest => if isWsC c then some (rest.dropWhile isWsC) else none
  | [] => none

/-- Match a sequence of literal words separated by `\s+`. -/
def matchWords : List String → List Char → Option (List Char)
  | [], l => some l
  | [w], l => matchCIL w.data l
  | w :: rest, l => (matchCIL w.data l).bind (fun l1 => (ws1 l1).bind (matchWords rest))

/-- The tail of a rule: optional leading `\s*`, then an optional single punctuation
character from `punct`, then `\s*$`. -/
def tailCheck (leadWs : Bool) (punct : List Char) (l : List Char) : Bool :=
  let l1 := if leadWs then dropWsL l else l
  l1.all isWsC ||
    (match l1 with
     | c :: r => punct.contains c && r.all isWsC
     | [] => true)

/-- What must hold of the remainder after the capture. -/
def postCheck (r : PatRule) (rest : List Char) : Bool :=
  match r.post with
  | [] => tailCheck false r.punct rest
  | _ =>
    let step1 : Option (List Char) :=
      if r.postSep then ws1 rest else some (dropWsL rest)
    match step1.bind (matchWords r.post) with
    | some rest2 => tailCheck true r.punct rest2
    | none => false

/-- Lazy capture `(.+?)`: the shortest nonempty capture (containing no line
terminator, which `.` does not match) after which `check` accepts the rest. -/
def capScan (check : List Char → Bool) (l : List Char) : Option (List Char) :=
  (List.range l.length).findSome? (fun j =>
    if ((l.take (j + 1)).all (fun ch => ch ≠ '\n' && ch ≠ '\r')) && check (l.drop (j + 1))
    then some (l.take (j + 1))
    else none)

/-- The optional greeting prefix `(?:\s*(?:hello|hi)[,!]?\s+)?`: leading `\s*`,
`hello` or `hi` (case-insensitively), an optional comma/exclamation, then `\s+`. -/
def greetConsume (l : List Char) : Option (List Char) :=
  let l1 := dropWsL l
  match matchCIL "hello".data l1 <|> matchCIL "hi".data l1 with
  | none => none
  | some l2 =>
    match l2 with
    | c :: r2 =>
      if c = ',' || c = '!' then
        match ws1 r2 with
        | some l4 => some l4
        | none => ws1 l2
      else ws1 l2
    | [] => none

/-- The part of a rule after the leading `\s*` / greeting: literal words, then
either the lazy capture with its tail or the capture-free tail.  Returns `none` on
no match, `some none` on a match of a capture-free rule, and `some (some c)` on a
match capturing `c`. -/
def ruleMatchCore (r : PatRule) (lc : List Char) : Option (Option (List Char)) :=
  match matchWords r.pre lc with
  | none => none
  | some rest =>
    if r.cap then
      match ws1 rest with
      | none => none
      | some rest1 => (capScan (postCheck r) rest1).map some
    else
      if tailCheck true r.punct rest then some none else none

/-- Interpret one rule against (the trimmed) input, with the backtracking of the
optional greeting group: try it greedily, fall back to skipping it. -/
def ruleMatch (r : PatRule) (l : List Char) : Option (Option (List Char)) :=
  if r.greet then
    match greetConsume (if r.lead then dropWsL l else l) with
    | some l1 =>
      match ruleMatchCore r l1 with
      | some res => some res
      | none => ruleMatchCore r (if r.lead then dropWsL l else l)
    | none => ruleMatchCore r (if r.lead then dropWsL l else l)
  else ruleMatchCore r (if r.lead then dropWsL l else l)

/-- `template.replace(/\$i/g, m[i].trim())` — substitute the trimmed captured group
into the positional placeholders (our rules have at most one group). -/
def substTemplate (template : String) (cap : Option (List Char)) : String :=
  match cap with
  | some c => ⟨replaceAllL "$1".data (trimList c) template.data⟩
  | none => template

/-- Apply one rule: result of the template substitution if the rule matches. -/
def applyRule (r : PatRule) (l : List Char) : Option String :=
  (ruleMatch r l).map (substTemplate r.template)

/-- `patternRules['en-ne']`. -/
def enNeRules : List PatRule := [
  ⟨false, true, ["this", "is"], true, true, [], ['.', '!', '?'], "यो $1 हो"⟩,
  ⟨true, false, ["my", "name", "is"], true, true, [], ['.', '!', '?'], "मेरो नाम $1 हो"⟩,
  ⟨true, false, ["i", "am"], true, true, [], ['.', '!', '?'], "म $1 हुँ"⟩,
  ⟨true, false, ["how", "are", "you"], false, true, [], ['?'], "तपाईं कस्तो हुनुहुन्छ?"⟩]

/-- `patternRules['en-si']`. -/
def enSiRules : List PatRule := [
  ⟨false, true, ["this", "is"], true, true, [], ['.', '!', '?'], "මේ $1"⟩,
  ⟨true, false, ["my", "name", "is"], true, true, [], ['.', '!', '?'], "මගේ නම $1"⟩,
  ⟨true, false, ["i", "am"], true, true, [], ['.', '!', '?'], "මම $1"⟩,
  ⟨true, false, ["how", "are", "you"], false, true, [], ['?'], "ඔයා කොහොමද?"⟩]

/-- `patternRules['ne-en']`. -/
def neEnRules : List PatRule := [
  ⟨true, false, ["यो"], true, true, ["हो"], ['।'], "this is $1"⟩,
  ⟨true, false, ["मेरो", "नाम"], true, true, ["हो"], ['।'], "my name is $1"⟩,
  ⟨true, false, ["म"], true, true, ["हुँ"], ['।'], "i am $1"⟩]

/-- `patternRules['si-en']`. -/
def siEnRules : List PatRule := [
  ⟨true, false, ["මෙය"], true, false, ["යි"], [], "this is $1"⟩,
  ⟨true, false, ["මේ"], true, true, [], [], "this is $1"⟩,
  ⟨true, false, ["මගේ", "නම"], true, true, [], [], "my name is $1"⟩,
  ⟨true, false, ["මම"], true, true, [], [], "i am $1"⟩]

/-- The `patternRules` record of FallbackTranslationService. -/
def patternRulesTable (key : String) : Option (List PatRule) :=
  if key = "en-ne" then some enNeRules
  else if key = "en-si" then some enSiRules
  else if key = "ne-en" then some neEnRules
  else if key = "si-en" then some siEnRules
  else none

/-- `FallbackTranslationService.applyPatternRules`: look up the rules for the pair,
trim the input, try the rules in declaration order and return the substituted
template of the first match (`null` — here `none` — otherwise). -/
def applyPatternRules (text sourceLang targetLang : String) : Option String :=
  match patternRulesTable (sourceLang ++ "-" ++ targetLang) with
  | none => none
  | some rules => rules.findSome? (fun r => applyRule r (trimS text).data)

/-! ## FallbackTranslationService: the resolution engine -/

/-- `isParagraph`: more than one sentence-terminator occurrence. -/
def isParagraph (text : String) : Bool := 1 < text.data.countP isTermC

/-- `isSentence`: contains a terminator, or has more than 3 whitespace-separated
words. -/
def isSentence (text : String) : Bool :=
  text.data.any isTermC || 3 < (jsSplitWs (trimS text).data).length

/-- `isPhrase`: more than one whitespace-separated word. -/
def isPhrase (text : String) : Bool := 1 < (jsSplitWs (trimS text).data).length

/-- `splitIntoSentences`: split on runs of sentence terminators and keep the pieces
with nonblank content. -/
def splitIntoSentences (text : String) : List String :=
  ((splitRuns isTermC text.data).map (fun l => (⟨l⟩ : String))).filter
    (fun s => trimS s ≠ "")

/-- `splitIntoMeaningfulChunks`: split on the delimiter class, trim the pieces and
drop the empty ones; if that yields exactly one chunk, regroup the whitespace-split
words of the text into windows of three. -/
def chunk3Go : Nat → List String → List String
  | _, [] => []
  | 0, _ => []
  | fuel + 1, w :: ws => joinWith " " ((w :: ws).take 3) :: chunk3Go fuel ((w :: ws).drop 3)

def chunk3 (words : List String) : List String := chunk3Go words.length words

def splitIntoMeaningfulChunks (text : String) : List String :=
  if (((splitEach isDelimC text.data).map (fun c => trimS ⟨c⟩)).filter
      (fun c => c ≠ "")).length = 1 then
    chunk3 ((jsSplitWs (trimS text).data).map (fun w => (⟨w⟩ : String)))
  else
    ((splitEach isDelimC text.data).map (fun c => trimS ⟨c⟩)).filter (fun c => c ≠ "")

/-- `translateWord`: lowered exact match, original-case exact match, match after
stripping non-letter/digit characters, else the input unchanged. -/
def translateWord (text : String) (translations : Lexicon) : String :=
  match getT translations (trimS (lowerS text)) with
  | some v => v
  | none =>
    match getT translations (trimS text) with
    | some v => v
    | none =>
      match getT translations ⟨(trimS (lowerS text)).data.filter isLetterOrDigitU⟩ with
      | some v => v
      | none => text

/-- `translateWordByWord`: split on whitespace, translate each word, rejoin with
single spaces. -/
def translateWordByWord (text : String) (translations : Lexicon) : String :=
  joinWith " " ((jsSplitWs (trimS text).data).map
    (fun w => translateWord ⟨w⟩ translations))

/-- `translatePhrase`: exact lowered match; else the first dictionary entry longer
than 3 characters that contains or is contained in the phrase (declaration order —
the keys of every dictionary in the `translations` table are pairwise distinct, so
the literal entry order is the JS iteration order); else word-by-word. -/
def translatePhrase (text : String) (translations : Lexicon) : String :=
  match getT translations (trimS (lowerS text)) with
  | some v => v
  | none =>
    match translations.findSome? (fun p =>
        if 3 < p.1.length && (containsS (trimS (lowerS text)) p.1 ||
            containsS p.1 (trimS (lowerS text)))
        then some p.2 else none) with
    | some tr => tr
    | none => translateWordByWord text translations

/-- The part of `translateSentence` after the pattern-rule attempt: long-phrase
short-circuit (first entry longer than 10 characters occurring in the lowered
sentence, replaced literally inside it), else chunk-wise phrase translation. -/
def translateSentenceCore (text : String) (translations : Lexicon) : String :=
  match translations.findSome? (fun p =>
      if 10 < p.1.length && containsS (trimS (lowerS text)) (lowerS p.1)
      then some p else none) with
  | some p => ⟨replaceFirstL (lowerS p.1).data p.2.data (trimS (lowerS text)).data⟩
  | none =>
    joinWith " " ((splitIntoMeaningfulChunks text).map
      (fun c => translatePhrase c translations))

/-- `translateSentence`: pattern rules first (their result is used when truthy,
i.e. a nonempty string), then `translateSentenceCore`. -/
def translateSentence (text : String) (translations : Lexicon)
    (sourceLang targetLang : String) : String :=
  match applyPatternRules text sourceLang targetLang with
  | some patterned =>
    if patterned = "" then translateSentenceCore text translations else patterned
  | none => translateSentenceCore text translations

/-- The body of `translateParagraph`'s line loop: a blank line becomes an empty
output line; otherwise the line's sentences are translated and joined with single
spaces. -/
def translateLine (l : List Char) (translations : Lexicon)
    (sourceLang targetLang : String) : String :=
  if trimS ⟨l⟩ = "" then ""
  else joinWith " " ((splitIntoSentences ⟨l⟩).map
    (fun s => translateSentence s translations sourceLang targetLang))

/-- `translateParagraph`: split on `\r?\n`, keep blank lines as empty output lines,
translate the sentences of each nonblank line and join them with single spaces,
rejoin the lines with `'\n'`. -/
def translateParagraph (text : String) (translations : Lexicon)
    (sourceLang targetLang : String) : String :=
  joinWith "\n" ((splitCRLFL text.data).map
    (fun l => translateLine l translations sourceLang targetLang))

/-- `translateComplexText`: exact whole-text match (lowered, then original case),
then dispatch on the span classification. -/
def translateComplexText (text : String) (translations : Lexicon)
    (sourceLang targetLang : String) : String :=
  match getT translations (trimS (lowerS text)) with
  | some v => v
  | none =>
    match getT translations (trimS text) with
    | some v => v
    | none =>
      if isParagraph text then translateParagraph text translations sourceLang targetLang
      else if isSentence text then translateSentence text translations sourceLang targetLang
      else if isPhrase text then translatePhrase text translations
      else translateWord text translations

/-- `FallbackTranslationService.translate` — the `resolve` entry point of the spec:
direct lexicon, else degrade-to-English when the target is English, else pivot
through English, else English-only output, else the no-dictionary marker.  This
string-valued model reads dictionary properties as own literal entries; the
service's property reads also consult `Object.prototype`, which `translateJS`
further below refines at the exact-match step (the only place an inherited value
escapes raw or is trimmed). -/
def translate (text sourceLang targetLang : String) : String :=
  match translationsTable (sourceLang ++ "-" ++ targetLang) with
  | some translations => translateComplexText text translations sourceLang targetLang
  | none =>
    match translationsTable (sourceLang ++ "-en") with
    | some toEnglish =>
      if targetLang = "en" then
        translateComplexText text toEnglish sourceLang "en"
      else
        match translationsTable ("en-" ++ targetLang) with
        | some fromEnglish =>
          translateComplexText
            (translateComplexText text toEnglish sourceLang "en")
            fromEnglish "en" targetLang
        | none => translateComplexText text toEnglish sourceLang "en"
    | none => "[No dictionary: " ++ sourceLang ++ "-" ++ targetLang ++ "] " ++ text

lemma prefix_decomp {p l : List Char} (h : p.isPrefixOf l = true) :
    l = p ++ l.drop p.length := by
  rw [List.isPrefixOf_iff_prefix] at h
  obtain ⟨t, rfl⟩ := h
  rw [List.drop_left]

/-- A character outside the pattern survives global replacement, so the result is
nonempty whenever the input contains such a character. -/
lemma replaceAllGo_ne_nil {pat rep : List Char} {c : Char} (hc : c ∉ pat) :
    ∀ (fuel : Nat) (l : List Char), c ∈ l → replaceAllGo pat rep fuel l ≠ [] := by
  intro fuel
  induction fuel with
  | zero =>
    intro l hl
    cases l with
    | nil => cases hl
    | cons x rest => simp [replaceAllGo]
  | succ n ih =>
    intro l hl
    cases l with
    | nil => cases hl
    | cons x rest =>
      rw [replaceAllGo]
      by_cases hb : (!pat.isEmpty && pat.isPrefixOf (x :: rest)) = true
      · rw [if_pos hb]
        have hpre : pat.isPrefixOf (x :: rest) = true := by
          simp only [Bool.and_eq_true] at hb
          exact hb.2
        have hdec := prefix_decomp hpre
        have hcdrop : c ∈ (x :: rest).drop pat.length := by
          have := hdec ▸ hl
          rcases List.mem_append.mp this with h1 | h2
          · exact absurd h1 hc
          · exact h2
        intro hcontra
        exact ih _ hcdrop (List.append_eq_nil.mp hcontra).2
      · rw [if_neg hb]
        simp

/-- Templates whose first character is not part of a `$1` placeholder produce a
nonempty (JS-truthy) substitution result; every template in `patternRules` does. -/
def templateOK (tmpl : String) : Bool :=
  match tmpl.data with
  | c :: _ => !(c = '$' || c = '1')
  | [] => false

lemma substTemplate_ne_empty {tmpl : String} (h : templateOK tmpl = true) :
    ∀ cap, substTemplate tmpl cap ≠ "" := by
  intro cap
  unfold templateOK at h
  rcases hd : tmpl.data with _ | ⟨c, rest⟩
  · rw [hd] at h; cases h
  · rw [hd] at h
    have hc1 : ¬(c = '$' || c = '1') = true := by simpa using h
    have hcmem : c ∈ tmpl.data := by rw [hd]; exact List.mem_cons_self c rest
    have hcpat : c ∉ ("$1".data) := by
      intro hmem
      apply hc1
      have : c = '$' ∨ c = '1' := by simpa using hmem
      rcases this with rfl | rfl <;> simp
    cases cap with
    | none =>
      intro hcontra
      simp only [substTemplate] at hcontra
      rw [hcontra] at hd
      cases hd
    | some cv =>
      unfold substTemplate
      intro hcontra
      have : (replaceAllL "$1".data (trimList cv) tmpl.data) = [] :=
        congrArg String.data hcontra
      exact replaceAllGo_ne_nil hcpat _ _ hcmem this

lemma patternRules_templateOK :
    ∀ key rules, patternRulesTable key = some rules →
      ∀ r ∈ rules, templateOK r.template = true := by
  intro key rules hk
  unfold patternRulesTable at hk
  split_ifs at hk <;> (cases hk <;> decide)

/-- A matched pattern rule never yields the empty string (so the JS truthy guard in
`translateSentence` always accepts it). -/
lemma applyPatternRules_ne_empty {text s t r} :
    applyPatternRules text s t = some r → r ≠ "" := by
  intro h
  unfold applyPatternRules at h
  rcases hk : patternRulesTable (s ++ "-" ++ t) with _ | rules
  · rw [hk] at h; cases h
  · rw [hk] at h
    obtain ⟨ru, hmem, hru⟩ := List.exists_of_findSome?_eq_some h
    unfold applyRule at hru
    rcases hm : ruleMatch ru (trimS text).data with _ | cap
    · rw [hm] at hru; cases hru
    · rw [hm] at hru
      rw [Option.map_some'] at hru
      have : r = substTemplate ru.template cap := (Option.some_inj.mp hru).symm
      rw [this]
      exact substTemplate_ne_empty (patternRules_templateOK _ _ hk ru hmem) cap

/-! ## C2 -/

lemma key_dash_en (s : String) : s ++ "-" ++ "en" = s ++ "-en" := by
  apply String.ext
  simp [String.data_append, List.append_assoc]

/-- C2: pivot correctness — with no direct lexicon but both `src-en` and `en-tgt`
present (and a non-English target), resolving directly equals resolving to English
first and then from English. -/
theorem pivot_correctness (text src tgt : String)
    (hne : tgt ≠ "en")
    (hdirect : translationsTable (src ++ "-" ++ tgt) = none)
    (hsrcEn : (translationsTable (src ++ "-en")).isSome = true)
    (henTgt : (translationsTable ("en-" ++ tgt)).isSome = true) :
    translate text src tgt = translate (translate text src "en") "en" tgt := by
  obtain ⟨d1, h1⟩ := Option.isSome_iff_exists.mp hsrcEn
  obtain ⟨d2, h2⟩ := Option.isSome_iff_exists.mp henTgt
  have h1' : translationsTable (src ++ "-" ++ "en") = some d1 := by
    rw [key_dash_en]; exact h1
  have hdir2 : translationsTable ("en" ++ "-" ++ tgt) = some d2 := h2
  have lhs : translate text src tgt =
      translateComplexText (translateComplexText text d1 src "en") d2 "en" tgt := by
    unfold translate
    simp only [hdirect, h1]
    rw [if_neg hne]
    simp only [h2]
  have rhs1 : translate text src "en" = translateComplexText text d1 src "en" := by
    unfold translate
    simp only [h1']
  have rhs2 : translate (translateComplexText text d1 src "en") "en" tgt =
      translateComplexText (translateComplexText text d1 src "en") d2 "en" tgt := by
    unfold translate
    simp only [show translationsTable ("en" ++ "-" ++ tgt) = some d2 from h2]
  rw [lhs, rhs1, rhs2]

/-- Witness for C2: the `fr → de` pair has no direct lexicon while `fr-en` and
`en-de` exist, and the pivot equation holds there. -/
theorem pivot_correctness_witness :
    translate "bonjour" "fr" "de" =
      translate (translate "bonjour" "fr" "en") "en" "de" :=
  pivot_correctness "bonjour" "fr" "de" (by decide) (by decide) (by decide)
    (by decide)

/-! ## C3 -/

/-- C3: exact-match idempotence — when the pair has a lexicon and the trimmed,
case-folded text is one of its (JS-truthy) keys, `resolve` returns exactly the
mapped value; the exact whole-text match precedes all segmentation and pattern
matching (the statement holds for arbitrary `text`, before any classification), and
for latin-script pairs casing is irrelevant (the lookup key is the lowered text);
concretely `resolve(" HeLLo ","en","hi")` and `resolve("HELLO","en","hi")` both
return the mapped value of `"hello"`. -/
theorem exact_match_idempotence :
    (∀ (text src tgt : String) (d : Lexicon) (v : String),
      translationsTable (src ++ "-" ++ tgt) = some d →
      getT d (trimS (lowerS text)) = some v →
      translate text src tgt = v) ∧
    translate " HeLLo " "en" "hi" = "नमस्ते" ∧
    translate "HELLO" "en" "hi" = "नमस्ते" := by
  refine ⟨?_, by decide, by decide⟩
  intro text src tgt d v hd hv
  have h1 : translate text src tgt = translateComplexText text d src tgt := by
    unfold translate
    rw [hd]
  rw [h1]
  unfold translateComplexText
  simp only [hv]

/-- Witness for C3 at `text = " HeLLo "`, pair `en-hi`. -/
theorem exact_match_idempotence_witness :
    translate " HeLLo " "en" "hi" = "नमस्ते" :=
  exact_match_idempotence.1 " HeLLo " "en" "hi" dEnHi "नमस्ते" (by decide) (by decide)

/-! ## C5 -/

/-- C5: pattern-rule semantics — rules are scanned in declaration order with the
first match winning (the two `findSome?` conjuncts), a match substitutes the
trimmed captured group into the positional placeholder of the template (third
conjunct), `translateSentence` returns a matched pattern result immediately,
independently of the lexicon, skipping lexicon matching entirely (fourth conjunct),
and concretely `resolve("my name is Sam","en","ne") = "मेरो नाम Sam हो"`. -/
theorem pattern_rule_semantics :
    (∀ (rules : List PatRule) (r : PatRule) (l : List Char) (res : String),
      applyRule r l = some res →
      (r :: rules).findSome? (fun ru => applyRule ru l) = some res) ∧
    (∀ (rules : List PatRule) (r : PatRule) (l : List Char),
      applyRule r l = none →
      (r :: rules).findSome? (fun ru => applyRule ru l) =
        rules.findSome? (fun ru => applyRule ru l)) ∧
    (∀ (r : PatRule) (l : List Char) (c : List Char),
      ruleMatch r l = some (some c) →
      applyRule r l = some ⟨replaceAllL "$1".data (trimList c) r.template.data⟩) ∧
    (∀ (text : String) (d : Lexicon) (src tgt res : String),
      applyPatternRules text src tgt = some res →
      translateSentence text d src tgt = res) ∧
    translate "my name is Sam" "en" "ne" = "मेरो नाम Sam हो" := by
  refine ⟨?_, ?_, ?_, ?_, by decide⟩
  · intro rules r l res h
    rw [List.findSome?_cons, h]
  · intro rules r l h
    rw [List.findSome?_cons, h]
  · intro r l c h
    unfold applyRule
    rw [h]
    rfl
  · intro text d src tgt res h
    unfold translateSentence
    simp only [h]
    rw [if_neg (applyPatternRules_ne_empty h)]

/-- Witness for C5: the second `en-ne` rule matches `"my name is Sam"` and
`translateSentence` returns its substituted template unchanged, for an arbitrary
lexicon (here the `en-ne` one). -/
theorem pattern_rule_semantics_witness :
    translateSentence "my name is Sam" dEnNe "en" "ne" = "मेरो नाम Sam हो" :=
  pattern_rule_semantics.2.2.2.1 "my name is Sam" dEnNe "en" "ne" "मेरो नाम Sam हो"
    (by decide)

/-! ## C4: line-structure lemmas

The paragraph path of the engine preserves the line structure of its input.  The
key invariant is that no translated line ever contains a `'\n'`: dictionary
values, pattern templates and pattern captures are newline-free, and every other
transformation only rearranges characters of its input. -/

lemma toLower_eq_nl {c : Char} (h : Char.toLower c = '\n') : c = '\n' := by
  unfold Char.toLower at h
  simp only [] at h
  by_cases hc : c.toNat ≥ 65 ∧ c.toNat ≤ 90
  · rw [if_pos hc] at h
    exfalso
    have hv : (c.toNat + 32).isValidChar := by
      left
      omega
    have hval : (Char.ofNat (c.toNat + 32)).toNat = c.toNat + 32 := by
      unfold Char.ofNat
      rw [dif_pos hv]
      rfl
    have h2 : (Char.ofNat (c.toNat + 32)).toNat = ('\n' : Char).toNat := by rw [h]
    rw [hval] at h2
    have h3 : ('\n' : Char).toNat = 10 := by decide
    omega
  · rwa [if_neg hc] at h

lemma noNL_lower {l : List Char} (h : '\n' ∉ l) : '\n' ∉ l.map Char.toLower := by
  intro hmem
  obtain ⟨c, hc, hlc⟩ := List.mem_map.mp hmem
  exact h (toLower_eq_nl hlc ▸ hc)

lemma mem_dropWsL {c : Char} {l : List Char} (h : c ∈ dropWsL l) : c ∈ l :=
  (List.dropWhile_sublist isWsC).subset h

lemma mem_trimList {c : Char} {l : List Char} (h : c ∈ trimList l) : c ∈ l := by
  unfold trimList at h
  rw [List.mem_reverse] at h
  have h1 := (List.dropWhile_sublist isWsC).subset h
  rw [List.mem_reverse] at h1
  exact (List.dropWhile_sublist isWsC).subset h1

lemma noNL_trimS {s : String} (h : '\n' ∉ s.data) : '\n' ∉ (trimS s).data :=
  fun hm => h (mem_trimList hm)

lemma noNL_lowerS {s : String} (h : '\n' ∉ s.data) : '\n' ∉ (lowerS s).data :=
  noNL_lower h

lemma splitRuns_ne_nil {q : Char → Bool} {l : List Char} : splitRuns q l ≠ [] := by
  induction l using splitRuns.induct q with
  | case1 => simp [splitRuns]
  | case2 c hc c2 tl hc2 ih => simpa [splitRuns, hc, hc2] using ih
  | case3 c hc c2 tl hc2 ih => simp [splitRuns, hc, hc2]
  | case4 c hc ih => simp [splitRuns, hc]
  | case5 c rest r hc p1 t1 hr ih =>
    have hr' : splitRuns q rest = p1 :: t1 := hr
    simp only [splitRuns, if_neg hc]
    rw [hr']
    simp
  | case6 c rest r hc hr ih =>
    exact absurd (hr : splitRuns q rest = []) ih

/-- Flattening the pieces of `splitRuns` recovers the non-separator characters. -/
lemma splitRuns_flatten {q : Char → Bool} {l : List Char} :
    (splitRuns q l).flatten = l.filter (fun c => !(q c)) := by
  induction l using splitRuns.induct q with
  | case1 => simp [splitRuns]
  | case2 c hc c2 tl hc2 ih =>
    have hstep : splitRuns q (c :: c2 :: tl) = splitRuns q (c2 :: tl) := by
      rw [splitRuns.eq_def]
      simp [hc, hc2]
    rw [hstep, ih]
    simp [List.filter_cons, hc]
  | case3 c hc c2 tl hc2 ih =>
    simp only [splitRuns, if_pos hc, if_neg hc2] at ih ⊢
    simp only [List.flatten_cons, List.nil_append] at ih ⊢
    rw [ih]
    simp [List.filter_cons, hc]
  | case4 c hc ih =>
    simp [splitRuns, hc]
  | case5 c rest r hc p1 t1 hr ih =>
    have hr' : splitRuns q rest = p1 :: t1 := hr
    simp only [splitRuns, if_neg hc]
    rw [hr']
    rw [hr'] at ih
    simp only [List.flatten_cons] at ih ⊢
    simp [List.filter_cons, hc, ← ih]
  | case6 c rest r hc hr ih =>
    exact absurd (hr : splitRuns q rest = []) splitRuns_ne_nil

lemma mem_splitRuns {q : Char → Bool} {c : Char} {l p : List Char}
    (hp : p ∈ splitRuns q l) (hc : c ∈ p) : c ∈ l := by
  have : c ∈ (splitRuns q l).flatten := List.mem_flatten.mpr ⟨p, hp, hc⟩
  rw [splitRuns_flatten] at this
  exact List.mem_of_mem_filter this

lemma splitEach_ne_nil {q : Char → Bool} {l : List Char} : splitEach q l ≠ [] := by
  induction l using splitEach.induct q with
  | case1 => simp [splitEach]
  | case2 c rest hc ih => simp [splitEach, hc]
  | case3 c rest r hc p1 t1 hr ih =>
    have hr' : splitEach q rest = p1 :: t1 := hr
    simp only [splitEach, if_neg hc]
    rw [hr']
    simp
  | case4 c rest r hc hr ih =>
    exact absurd (hr : splitEach q rest = []) ih

lemma splitEach_flatten {q : Char → Bool} {l : List Char} :
    (splitEach q l).flatten = l.filter (fun c => !(q c)) := by
  induction l using splitEach.induct q with
  | case1 => simp [splitEach]
  | case2 c rest hc ih => simp [splitEach, hc, ih]
  | case3 c rest r hc p1 t1 hr ih =>
    have hr' : splitEach q rest = p1 :: t1 := hr
    simp only [splitEach, if_neg hc]
    rw [hr']
    rw [hr'] at ih
    simp only [List.flatten_cons] at ih ⊢
    simp [List.filter_cons, hc, ← ih]
  | case4 c rest r hc hr ih =>
    exact absurd (hr : splitEach q rest = []) splitEach_ne_nil

lemma mem_splitEach {q : Char → Bool} {c : Char} {l p : List Char}
    (hp : p ∈ splitEach q l) (hc : c ∈ p) : c ∈ l := by
  have : c ∈ (splitEach q l).flatten := List.mem_flatten.mpr ⟨p, hp, hc⟩
  rw [splitEach_flatten] at this
  exact List.mem_of_mem_filter this

/-- `splitEach` produces one more piece than the number of matching characters. -/
lemma splitEach_length {q : Char → Bool} {l : List Char} :
    (splitEach q l).length = l.countP q + 1 := by
  induction l using splitEach.induct q with
  | case1 => simp [splitEach]
  | case2 c rest hc ih =>
    have hstep : splitEach q (c :: rest) = [] :: splitEach q rest := by
      rw [splitEach.eq_def]
      simp [hc]
    rw [hstep]
    simp only [List.length_cons, List.countP_cons, hc, ih]
    simp
  | case3 c rest r hc p1 t1 hr ih =>
    have hr' : splitEach q rest = p1 :: t1 := hr
    simp only [splitEach, if_neg hc]
    rw [hr']
    rw [hr'] at ih
    simp only [List.length_cons, List.countP_cons, hc] at ih ⊢
    simpa using ih
  | case4 c rest r hc hr ih =>
    exact absurd (hr : splitEach q rest = []) splitEach_ne_nil

/-- The pieces produced by `splitCRLFL` contain no `'\n'`. -/
lemma splitCRLFL_noNL {l : List Char} :
    ∀ {p : List Char}, p ∈ splitCRLFL l → '\n' ∉ p := by
  induction l using splitCRLFL.induct with
  | case1 =>
    intro p hp
    simp [splitCRLFL] at hp
    subst hp
    simp
  | case2 rest ih =>
    intro p hp
    rw [splitCRLFL] at hp
    rcases List.mem_cons.mp hp with hp | hp
    · subst hp; simp
    · exact ih hp
  | case3 rest ih =>
    intro p hp
    rw [splitCRLFL] at hp
    rcases List.mem_cons.mp hp with hp | hp
    · subst hp; simp
    · exact ih hp
  | case4 c rest hc1 hc2 p1 t1 hsp ih =>
    intro p hp
    have hcn : c ≠ '\n' := fun hcc => hc1 hcc
    rw [splitCRLFL.eq_4 c rest (fun hcc => hc1 hcc) hc2] at hp
    rw [hsp] at hp
    rcases List.mem_cons.mp hp with hp | hp
    · subst hp
      intro hmem
      rcases List.mem_cons.mp hmem with hm | hm
      · exact hcn hm.symm
      · exact ih (hsp ▸ List.mem_cons_self p1 t1) hm
    · exact ih (hsp ▸ List.mem_cons_of_mem p1 hp)
  | case5 c rest hc1 hc2 hsp ih =>
    intro p hp
    have hcn : c ≠ '\n' := fun hcc => hc1 hcc
    rw [splitCRLFL.eq_4 c rest (fun hcc => hc1 hcc) hc2] at hp
    rw [hsp] at hp
    simp at hp
    subst hp
    intro hmem
    rcases List.mem_cons.mp hmem with hm | hm
    · exact hcn hm.symm
    · cases hm

/-- `splitCRLFL` always produces one more piece than the number of `'\n'`s. -/
lemma splitCRLFL_length {l : List Char} :
    (splitCRLFL l).length = l.count '\n' + 1 := by
  induction l using splitCRLFL.induct with
  | case1 => simp [splitCRLFL]
  | case2 rest ih =>
    rw [splitCRLFL]
    simp [ih, List.count_cons]
  | case3 rest ih =>
    rw [splitCRLFL]
    simp only [List.length_cons, ih]
    have h1 : List.count '\n' ('\r' :: '\n' :: rest) = List.count '\n' rest + 1 := by
      simp [List.count_cons]
    omega
  | case4 c rest hc1 hc2 p1 t1 hsp ih =>
    have hcn : c ≠ '\n' := fun hcc => hc1 hcc
    rw [splitCRLFL.eq_4 c rest (fun hcc => hc1 hcc) hc2, hsp]
    rw [hsp] at ih
    simp only [List.length_cons] at ih ⊢
    have h2 : List.count '\n' (c :: rest) = List.count '\n' rest := by
      simp [List.count_cons, hcn]
    omega
  | case5 c rest hc1 hc2 hsp ih =>
    have hcn : c ≠ '\n' := fun hcc => hc1 hcc
    rw [splitCRLFL.eq_4 c rest (fun hcc => hc1 hcc) hc2, hsp]
    rw [hsp] at ih
    simp only [List.length_cons, List.length_nil] at ih ⊢
    have h2 : List.count '\n' (c :: rest) = List.count '\n' rest := by
      simp [List.count_cons, hcn]
    omega

lemma splitCRLFL_ne_nil {l : List Char} : splitCRLFL l ≠ [] := by
  intro hcontra
  have := @splitCRLFL_length l
  rw [hcontra] at this
  simp at this

/-! ### Joining and recovering lines -/

lemma foldl_join_data (sep : String) :
    ∀ (t : List String) (a : String),
      (t.foldl (fun acc x => acc ++ sep ++ x) a).data =
        a.data ++ (t.map (fun x => sep.data ++ x.data)).flatten := by
  intro t
  induction t with
  | nil => intro a; simp
  | cons x xs ih =>
    intro a
    simp only [List.foldl_cons, ih, List.map_cons, List.flatten_cons]
    simp [String.data_append, List.append_assoc]

lemma joinWith_data (sep : String) (h : String) (t : List String) :
    (joinWith sep (h :: t)).data =
      h.data ++ (t.map (fun x => sep.data ++ x.data)).flatten := by
  unfold joinWith
  exact foldl_join_data sep t h

lemma mem_joinWith {sep : String} {c : Char} {ls : List String}
    (h : c ∈ (joinWith sep ls).data) :
    c ∈ sep.data ∨ ∃ s ∈ ls, c ∈ s.data := by
  cases ls with
  | nil => simp [joinWith] at h
  | cons x xs =>
    rw [joinWith_data] at h
    rcases List.mem_append.mp h with h | h
    · right; exact ⟨x, List.mem_cons_self _ _, h⟩
    · obtain ⟨piece, hpm, hcp⟩ := List.mem_flatten.mp h
      obtain ⟨s, hs, rfl⟩ := List.mem_map.mp hpm
      rcases List.mem_append.mp hcp with h | h
      · left; exact h
      · right; exact ⟨s, List.mem_cons_of_mem _ hs, h⟩

/-- The `'\n'` character class, as a `Bool` predicate. -/
def isNLC (c : Char) : Bool := c == '\n'

lemma splitEach_nosep {q : Char → Bool} :
    ∀ {h : List Char}, (∀ c ∈ h, ¬ q c = true) → splitEach q h = [h] := by
  intro h
  induction h with
  | nil => intro _; rfl
  | cons x rest ih =>
    intro hall
    have hx : ¬ q x = true := hall x (List.mem_cons_self _ _)
    have hrest : splitEach q rest = [rest] :=
      ih (fun c hc => hall c (List.mem_cons_of_mem _ hc))
    rw [splitEach.eq_def]
    simp [hx, hrest]

lemma splitEach_prepend_piece {q : Char → Bool} :
    ∀ {h : List Char} {l p : List Char} {t : List (List Char)},
      (∀ c ∈ h, ¬ q c = true) → splitEach q l = p :: t →
      splitEach q (h ++ l) = (h ++ p) :: t := by
  intro h
  induction h with
  | nil => intro l p t _ hl; simpa using hl
  | cons x rest ih =>
    intro l p t hall hl
    have hx : ¬ q x = true := hall x (List.mem_cons_self _ _)
    have hrec := ih (fun c hc => hall c (List.mem_cons_of_mem _ hc)) hl
    rw [List.cons_append, splitEach.eq_def]
    simp [hx, hrec]

/-- Splitting a newline-join of newline-free pieces on `'\n'` recovers the pieces. -/
lemma splitEach_join_nl :
    ∀ (t : List (List Char)) (h : List Char),
      '\n' ∉ h → (∀ p ∈ t, '\n' ∉ p) →
      splitEach isNLC (h ++ (t.map (fun x => '\n' :: x)).flatten) = h :: t := by
  intro t
  induction t with
  | nil =>
    intro h hh _
    simp only [List.map_nil, List.flatten_nil, List.append_nil]
    exact splitEach_nosep (fun c hc => by
      simp only [isNLC, beq_iff_eq]
      intro hceq
      exact hh (hceq ▸ hc))
  | cons p ps ih =>
    intro h hh hall
    have hp : '\n' ∉ p := hall p (List.mem_cons_self _ _)
    have hps : ∀ x ∈ ps, '\n' ∉ x := fun x hx => hall x (List.mem_cons_of_mem _ hx)
    have hrec : splitEach isNLC (p ++ (ps.map (fun x => '\n' :: x)).flatten) = p :: ps :=
      ih p hp hps
    have hstep : splitEach isNLC
        ('\n' :: (p ++ (ps.map (fun x => '\n' :: x)).flatten)) =
        [] :: p :: ps := by
      rw [splitEach.eq_def]
      simp only [isNLC]
      simp [hrec]
    have hfl : (List.map (fun x => '\n' :: x) (p :: ps)).flatten =
        '\n' :: (p ++ (ps.map (fun x => '\n' :: x)).flatten) := by
      simp
    rw [hfl]
    have := splitEach_prepend_piece (q := isNLC)
      (h := h) (fun c hc => by
        simp only [isNLC, beq_iff_eq]
        intro hceq
        exact hh (hceq ▸ hc)) hstep
    rw [this]
    simp

/-- Splitting the `'\n'`-join of a nonempty list of newline-free strings on `'\n'`
recovers the strings. -/
lemma joinWith_nl_split (ls : List String) (hne : ls ≠ [])
    (hnl : ∀ s ∈ ls, '\n' ∉ s.data) :
    splitEach isNLC (joinWith "\n" ls).data = ls.map String.data := by
  cases ls with
  | nil => cases hne rfl
  | cons h t =>
    rw [joinWith_data]
    have hmap : (t.map (fun x => ("\n" : String).data ++ x.data)) =
        ((t.map String.data).map (fun x => '\n' :: x)) := by
      simp [List.map_map]
    rw [hmap]
    have hres := splitEach_join_nl (t.map String.data) h.data
      (hnl h (List.mem_cons_self _ _))
      (fun p hp => by
        obtain ⟨s, hs, rfl⟩ := List.mem_map.mp hp
        exact hnl s (List.mem_cons_of_mem _ hs))
    rw [hres]
    simp

/-- Number of newlines in the `'\n'`-join of newline-free strings. -/
lemma countNL_joinWith (ls : List String) (hne : ls ≠ [])
    (hnl : ∀ s ∈ ls, '\n' ∉ s.data) :
    countNL (joinWith "\n" ls) = ls.length - 1 := by
  have h1 : (splitEach isNLC (joinWith "\n" ls).data).length = ls.length := by
    rw [joinWith_nl_split ls hne hnl]
    simp
  rw [splitEach_length] at h1
  unfold countNL
  have h2 : List.count '\n' (joinWith "\n" ls).data =
      List.countP isNLC (joinWith "\n" ls).data := rfl
  omega

/-! ### Newline-free dictionaries, templates and captures -/

/-- All values of a lexicon are newline-free. -/
def lexNoNL (d : Lexicon) : Bool :=
  d.all (fun p => p.2.data.all (fun c => !(c == '\n')))

lemma lexNoNL_mem {d : Lexicon} {p : String × String} (hd : lexNoNL d = true)
    (hp : p ∈ d) : '\n' ∉ p.2.data := by
  unfold lexNoNL at hd
  have h1 := (List.all_eq_true.mp hd) p hp
  intro hmem
  have h2 := (List.all_eq_true.mp h1) _ hmem
  simp at h2

lemma lookupLast_mem {d : Lexicon} {k v : String} (h : lookupLast d k = some v) :
    ∃ p ∈ d, p.2 = v := by
  unfold lookupLast at h
  rcases hg : (d.filter (fun p => p.1 = k)).getLast? with _ | p
  · rw [hg] at h; cases h
  · rw [hg] at h
    have hpd := List.mem_of_mem_filter (List.mem_of_mem_getLast? hg)
    simp only [Option.map_some'] at h
    exact ⟨p, hpd, Option.some_inj.mp h⟩

lemma getT_noNL {d : Lexicon} {k v : String} (hd : lexNoNL d = true)
    (h : getT d k = some v) : '\n' ∉ v.data := by
  unfold getT at h
  split at h
  next v' hl =>
    split_ifs at h with hv
    obtain ⟨p, hpd, hpv⟩ := lookupLast_mem hl
    have hnl := lexNoNL_mem hd hpd
    rw [hpv] at hnl
    rw [← Option.some_inj.mp h]
    exact hnl
  next hl => exact Option.noConfusion h

lemma translationsTable_mem {key : String} {d : Lexicon}
    (h : translationsTable key = some d) : ∃ p ∈ translationsList, p.2 = d := by
  unfold translationsTable at h
  rcases hf : translationsList.find? (fun p => p.1 = key) with _ | p
  · rw [hf] at h; exact Option.noConfusion h
  · rw [hf] at h
    simp only [Option.map_some'] at h
    exact ⟨p, List.mem_of_find?_eq_some hf, Option.some_inj.mp h⟩

set_option maxHeartbeats 1600000 in
lemma translationsList_noNL : translationsList.all (fun p => lexNoNL p.2) = true := by
  decide

/-- Every dictionary in the `translations` table has newline-free values. -/
lemma translationsTable_noNL {key : String} {d : Lexicon}
    (h : translationsTable key = some d) : lexNoNL d = true := by
  obtain ⟨p, hpm, hpd⟩ := translationsTable_mem h
  have hall := (List.all_eq_true.mp translationsList_noNL) p hpm
  rwa [hpd] at hall

/-- Every pattern-rule template is newline-free. -/
lemma patternRules_noNL {key : String} {rules : List PatRule}
    (h : patternRulesTable key = some rules) :
    ∀ r ∈ rules, '\n' ∉ r.template.data := by
  unfold patternRulesTable at h
  split_ifs at h <;> (cases h <;> decide)

lemma capScan_noNL {check : List Char → Bool} {l cap : List Char}
    (h : capScan check l = some cap) : '\n' ∉ cap := by
  unfold capScan at h
  obtain ⟨j, _, hf⟩ := List.exists_of_findSome?_eq_some h
  split_ifs at hf with hcond
  cases hf
  intro hmem
  simp only [Bool.and_eq_true] at hcond
  have hx := (List.all_eq_true.mp hcond.1) _ hmem
  simp at hx

lemma ruleMatchCore_cap_noNL {r : PatRule} {lc cap : List Char}
    (h : ruleMatchCore r lc = some (some cap)) : '\n' ∉ cap := by
  unfold ruleMatchCore at h
  split at h
  next hw => exact Option.noConfusion h
  next rest hw =>
    split_ifs at h with hcap htl
    · split at h
      next hs => exact Option.noConfusion h
      next rest1 hs =>
        obtain ⟨cv, hcv, hceq⟩ := Option.map_eq_some'.mp h
        have hcc : cv = cap := Option.some_inj.mp hceq
        exact hcc ▸ capScan_noNL hcv
    · exact Option.noConfusion (Option.some_inj.mp h)

lemma ruleMatch_cap_noNL_aux {r : PatRule} {l0 cap : List Char}
    (h : (match greetConsume l0 with
          | some l1 =>
            match ruleMatchCore r l1 with
            | some res => some res
            | none => ruleMatchCore r l0
          | none => ruleMatchCore r l0) = some (some cap)) : '\n' ∉ cap := by
  split at h
  · split at h
    · rename_i res hcore
      have hres : res = some cap := Option.some_inj.mp h
      exact ruleMatchCore_cap_noNL (hres ▸ hcore)
    · exact ruleMatchCore_cap_noNL h
  · exact ruleMatchCore_cap_noNL h

lemma ruleMatch_cap_noNL {r : PatRule} {l cap : List Char}
    (h : ruleMatch r l = some (some cap)) : '\n' ∉ cap := by
  unfold ruleMatch at h
  split_ifs at h
  all_goals first
  | exact ruleMatch_cap_noNL_aux h
  | exact ruleMatchCore_cap_noNL h

lemma mem_replaceAllGo {pat rep : List Char} {c : Char} :
    ∀ {fuel : Nat} {l : List Char}, c ∈ replaceAllGo pat rep fuel l → c ∈ l ∨ c ∈ rep := by
  intro fuel
  induction fuel with
  | zero =>
    intro l h
    cases l with
    | nil => cases h
    | cons x rest => exact Or.inl h
  | succ n ih =>
    intro l h
    cases l with
    | nil => cases h
    | cons x rest =>
      rw [replaceAllGo] at h
      split_ifs at h with hb
      · rcases List.mem_append.mp h with h | h
        · right; exact h
        · rcases ih h with h | h
          · left; exact List.mem_of_mem_drop h
          · right; exact h
      · rcases List.mem_cons.mp h with h | h
        · left; exact h ▸ List.mem_cons_self _ _
        · rcases ih h with h | h
          · left; exact List.mem_cons_of_mem _ h
          · right; exact h

lemma mem_replaceFirstL {pat rep : List Char} {c : Char} :
    ∀ {l : List Char}, c ∈ replaceFirstL pat rep l → c ∈ l ∨ c ∈ rep := by
  intro l
  induction l with
  | nil =>
    intro h
    rw [replaceFirstL] at h
    split_ifs at h with hp
    · right; exact h
    · cases h
  | cons x rest ih =>
    intro h
    rw [replaceFirstL] at h
    split_ifs at h with hp
    · rcases List.mem_append.mp h with h | h
      · right; exact h
      · left; exact List.mem_of_mem_drop h
    · rcases List.mem_cons.mp h with h | h
      · left; exact h ▸ List.mem_cons_self _ _
      · rcases ih h with h | h
        · left; exact List.mem_cons_of_mem _ h
        · right; exact h

lemma substTemplate_noNL {tmpl : String} {cap : Option (List Char)}
    (ht : '\n' ∉ tmpl.data) (hc : ∀ c', cap = some c' → '\n' ∉ c') :
    '\n' ∉ (substTemplate tmpl cap).data := by
  cases cap with
  | none => exact ht
  | some cv =>
    unfold substTemplate
    intro hmem
    rcases mem_replaceAllGo hmem with h | h
    · exact ht h
    · exact hc cv rfl (mem_trimList h)

lemma applyPatternRules_noNL {text s t : String} {res : String}
    (h : applyPatternRules text s t = some res) : '\n' ∉ res.data := by
  unfold applyPatternRules at h
  rcases hk : patternRulesTable (s ++ "-" ++ t) with _ | rules
  · rw [hk] at h; cases h
  · rw [hk] at h
    obtain ⟨ru, hmem, hru⟩ := List.exists_of_findSome?_eq_some h
    unfold applyRule at hru
    rcases hm : ruleMatch ru (trimS text).data with _ | cap
    · rw [hm] at hru; cases hru
    · rw [hm] at hru
      rw [Option.map_some'] at hru
      have hres : res = substTemplate ru.template cap := (Option.some_inj.mp hru).symm
      rw [hres]
      apply substTemplate_noNL (patternRules_noNL hk ru hmem)
      intro c' hcap
      exact ruleMatch_cap_noNL (hcap ▸ hm)

/-! ### The engine never introduces a newline -/

lemma noNL_translateWord {text : String} {d : Lexicon}
    (ht : '\n' ∉ text.data) (hd : lexNoNL d = true) :
    '\n' ∉ (translateWord text d).data := by
  unfold translateWord
  split
  next v hv => exact getT_noNL hd hv
  next hv1 =>
    split
    next v hv => exact getT_noNL hd hv
    next hv2 =>
      split
      next v hv => exact getT_noNL hd hv
      next hv3 => exact ht

lemma noNL_translateWordByWord {text : String} {d : Lexicon}
    (ht : '\n' ∉ text.data) (hd : lexNoNL d = true) :
    '\n' ∉ (translateWordByWord text d).data := by
  unfold translateWordByWord
  intro hmem
  rcases mem_joinWith hmem with h | ⟨s, hs, hcs⟩
  · simp at h
  · obtain ⟨w, hw, rfl⟩ := List.mem_map.mp hs
    have hwnl : '\n' ∉ ((⟨w⟩ : String)).data := by
      intro hmm
      exact noNL_trimS ht (mem_splitRuns hw hmm)
    exact noNL_translateWord hwnl hd hcs

lemma noNL_translatePhrase {text : String} {d : Lexicon}
    (ht : '\n' ∉ text.data) (hd : lexNoNL d = true) :
    '\n' ∉ (translatePhrase text d).data := by
  unfold translatePhrase
  split
  next v hv => exact getT_noNL hd hv
  next hv =>
    split
    next tr htr =>
      obtain ⟨p, hpd, hf⟩ := List.exists_of_findSome?_eq_some htr
      split_ifs at hf with hcond
      cases hf
      exact lexNoNL_mem hd hpd
    next _ => exact noNL_translateWordByWord ht hd

lemma noNL_chunk3Go {fuel : Nat} {ws : List String}
    (hws : ∀ w ∈ ws, '\n' ∉ w.data) :
    ∀ ch ∈ chunk3Go fuel ws, '\n' ∉ ch.data := by
  induction fuel generalizing ws with
  | zero =>
    intro ch hch
    cases ws with
    | nil => cases hch
    | cons x r => cases hch
  | succ n ih =>
    intro ch hch
    cases ws with
    | nil => cases hch
    | cons w ws' =>
      rw [chunk3Go] at hch
      rcases List.mem_cons.mp hch with hch | hch
      · subst hch
        intro hmem
        rcases mem_joinWith hmem with h | ⟨s, hs, hcs⟩
        · simp at h
        · exact hws s (List.mem_of_mem_take hs) hcs
      · exact ih (fun w2 hw2 => hws w2 (List.mem_of_mem_drop hw2)) ch hch

lemma noNL_splitIntoMeaningfulChunks {text : String} (ht : '\n' ∉ text.data) :
    ∀ ch ∈ splitIntoMeaningfulChunks text, '\n' ∉ ch.data := by
  unfold splitIntoMeaningfulChunks
  intro ch hch
  split at hch
  · refine noNL_chunk3Go ?_ ch hch
    intro w hw
    obtain ⟨wl, hwl, rfl⟩ := List.mem_map.mp hw
    intro hmm
    exact noNL_trimS ht (mem_splitRuns hwl hmm)
  · have hch2 := List.mem_of_mem_filter hch
    obtain ⟨piece, hpm, rfl⟩ := List.mem_map.mp hch2
    intro hmm
    exact ht (mem_splitEach hpm (mem_trimList hmm))

lemma noNL_translateSentenceCore {text : String} {d : Lexicon}
    (ht : '\n' ∉ text.data) (hd : lexNoNL d = true) :
    '\n' ∉ (translateSentenceCore text d).data := by
  unfold translateSentenceCore
  split
  next p hp =>
    obtain ⟨p', hpd, hf⟩ := List.exists_of_findSome?_eq_some hp
    split_ifs at hf with hcond
    cases hf
    intro hmem
    rcases mem_replaceFirstL hmem with h | h
    · exact noNL_trimS (noNL_lowerS ht) h
    · exact lexNoNL_mem hd hpd h
  next _ =>
    intro hmem
    rcases mem_joinWith hmem with h | ⟨s, hs, hcs⟩
    · simp at h
    · obtain ⟨ch, hchm, rfl⟩ := List.mem_map.mp hs
      exact noNL_translatePhrase (noNL_splitIntoMeaningfulChunks ht ch hchm) hd hcs

lemma noNL_translateSentence {text : String} {d : Lexicon} {src tgt : String}
    (ht : '\n' ∉ text.data) (hd : lexNoNL d = true) :
    '\n' ∉ (translateSentence text d src tgt).data := by
  unfold translateSentence
  split
  next patterned hp =>
    split_ifs with he
    · exact noNL_translateSentenceCore ht hd
    · exact applyPatternRules_noNL hp
  next _ => exact noNL_translateSentenceCore ht hd

lemma noNL_translateLine {l : List Char} {d : Lexicon} {src tgt : String}
    (hl : '\n' ∉ l) (hd : lexNoNL d = true) :
    '\n' ∉ (translateLine l d src tgt).data := by
  unfold translateLine
  split_ifs with hb
  · simp
  · intro hmem
    rcases mem_joinWith hmem with h | ⟨s, hs, hcs⟩
    · simp at h
    · obtain ⟨sen, hsen, rfl⟩ := List.mem_map.mp hs
      have hsen2 : sen ∈ ((splitRuns isTermC l).map
          (fun p => (⟨p⟩ : String))).filter (fun s => trimS s ≠ "") := hsen
      have hsm := List.mem_of_mem_filter hsen2
      obtain ⟨piece, hpm, rfl⟩ := List.mem_map.mp hsm
      have hpiece : '\n' ∉ piece := fun hmm => hl (mem_splitRuns hpm hmm)
      exact noNL_translateSentence hpiece hd hcs

/-! ### C4 -/

lemma forall₂_map_self {α β : Type _} (P : α → β → Prop) (g : α → β) :
    ∀ (l : List α), (∀ a ∈ l, P a (g a)) → List.Forall₂ P l (l.map g) := by
  intro l
  induction l with
  | nil => intro _; exact List.Forall₂.nil
  | cons x xs ih =>
    intro h
    exact List.Forall₂.cons (h x (List.mem_cons_self _ _))
      (ih (fun a ha => h a (List.mem_cons_of_mem _ ha)))

/-- C4 (amended): on the inputs that reach the paragraph handler — a direct lexicon
exists, the whole text has no exact lexicon match, and the text contains more than
one sentence terminator — the output has exactly as many `'\n'` line breaks as the
input (`\r\n` breaks are rejoined as `'\n'`), and every blank input line yields an
empty output line (the `Forall₂` also forces the line counts to agree).  The
original claim quantified over *every* input: it fails on inputs that do not reach
the paragraph handler (see the counterexample). -/
theorem paragraph_line_preservation (text src tgt : String) (d : Lexicon)
    (hd : translationsTable (src ++ "-" ++ tgt) = some d)
    (hclean : getT d (trimS (lowerS text)) = none)
    (horig : getT d (trimS text) = none)
    (hp : isParagraph text = true) :
    countNL (translate text src tgt) = countNL text ∧
    List.Forall₂ (fun lin out => trimList lin = [] → out = [])
      (splitCRLFL text.data)
      (splitEach isNLC (translate text src tgt).data) := by
  have hdN : lexNoNL d = true := translationsTable_noNL hd
  have htr : translate text src tgt = translateParagraph text d src tgt := by
    have h1 : translate text src tgt = translateComplexText text d src tgt := by
      unfold translate
      rw [hd]
    rw [h1]
    unfold translateComplexText
    simp only [hclean, horig, hp, if_true]
  have hnlout : ∀ s ∈ (splitCRLFL text.data).map (fun l => translateLine l d src tgt),
      '\n' ∉ s.data := by
    intro s hs
    obtain ⟨l, hl, rfl⟩ := List.mem_map.mp hs
    exact noNL_translateLine (splitCRLFL_noNL hl) hdN
  have hne : (splitCRLFL text.data).map (fun l => translateLine l d src tgt) ≠ [] := by
    intro hcontra
    exact splitCRLFL_ne_nil (List.map_eq_nil_iff.mp hcontra)
  have houtdef : translateParagraph text d src tgt =
      joinWith "\n" ((splitCRLFL text.data).map (fun l => translateLine l d src tgt)) := rfl
  constructor
  · rw [htr, houtdef, countNL_joinWith _ hne hnlout]
    unfold countNL
    rw [List.length_map]
    have hlen := @splitCRLFL_length text.data
    omega
  · rw [htr, houtdef, joinWith_nl_split _ hne hnlout, List.map_map]
    apply forall₂_map_self
    intro l _
    intro hblank
    have hbl : trimS ⟨l⟩ = "" := by
      apply String.ext
      exact hblank
    simp only [Function.comp_apply]
    unfold translateLine
    rw [if_pos hbl]

/-- C4 counterexample: the claim as stated fails — `"hello\nworld"` has one line
break but is not classified as a paragraph (no sentence terminators), takes the
phrase path, matches the entry `"hello"` and returns `"नमस्ते"`, which has none. -/
theorem paragraph_line_preservation_counterexample :
    countNL "hello\nworld" = 1 ∧
    translate "hello\nworld" "en" "hi" = "नमस्ते" ∧
    countNL (translate "hello\nworld" "en" "hi") = 0 :=
  ⟨by decide, by decide, by decide⟩

/-- Witness for C4 at the two-terminator input `"hello.\n\nthanks."` over `en-hi`. -/
theorem paragraph_line_preservation_witness :
    countNL (translate "hello.\n\nthanks." "en" "hi") = countNL "hello.\n\nthanks." ∧
    List.Forall₂ (fun lin out => trimList lin = [] → out = [])
      (splitCRLFL ("hello.\n\nthanks." : String).data)
      (splitEach isNLC (translate "hello.\n\nthanks." "en" "hi").data) :=
  paragraph_line_preservation "hello.\n\nthanks." "en" "hi" dEnHi (by decide)
    (by decide) (by decide) (by decide)

/-! ## OfflineTranslationService — the `src/services/OfflineTranslation.ts` variant

Modelled with suffix `N`.  `Date.now()` is an explicit `now : Int` (milliseconds);
`localStorage` writes (`saveLanguagePackStatus`, `saveCacheToStorage`) are external
side effects that this variant never reads back inside the modelled operations, so
they are not part of the state; the `lastUpdated : Date` pack field is written at
construction and never read, and is omitted. -/

/-- OfflineTranslation.ts loadLanguageDictionary demo Map for 'ne'. -/
def demoNeN : Lexicon := [
  ("नमस्ते", "Hello"),
  ("धन्यवाद", "Thank you"),
  ("माफ गर्नुहोस्", "Sorry"),
  ("कृपया", "Please"),
  ("हो", "Yes"),
  ("होइन", "No"),
  ("पानी", "Water"),
  ("खाना", "Food"),
  ("घर", "Home"),
  ("विद्यालय", "School"),
  ("काम", "Work"),
  ("समय", "Time"),
  ("पैसा", "Money"),
  ("मित्र", "Friend"),
  ("परिवार", "Family"),
  ("प्रेम", "Love"),
  ("खुशी", "Happiness"),
  ("दुःख", "Sadness"),
  ("स्वास्थ्य", "Health"),
  ("शिक्षा", "Education"),
  ("तपाईं कस्तो हुनुहुन्छ?", "How are you?"),
  ("मेरो नाम", "My name is"),
  ("म नेपाली बोल्छु", "I speak Nepali"),
  ("तपाईंलाई भेटेर खुशी लाग्यो", "Nice to meet you"),
  ("यो कति हो?", "How much is this?")]

/-- OfflineTranslation.ts loadLanguageDictionary demo Map for 'si'. -/
def demoSiN : Lexicon := [
  ("ආයුබෝවන්", "Hello"),
  ("ස්තූතියි", "Thank you"),
  ("සමාවන්න", "Sorry"),
  ("කරුණාකර", "Please"),
  ("ඔව්", "Yes"),
  ("නැහැ", "No"),
  ("වතුර", "Water"),
  ("කෑම", "Food"),
  ("ගෙදර", "Home"),
  ("පාසල", "School"),
  ("වැඩ", "Work"),
  ("වෙලාව", "Time"),
  ("පිසු", "Money"),
  ("යාළුවා", "Friend"),
  ("පවුල", "Family"),
  ("ආදරය", "Love"),
  ("සතුට", "Happiness"),
  ("දුක", "Sadness"),
  ("සෞඛ්‍යය", "Health"),
  ("අධ්‍යාපනය", "Education"),
  ("ඔයා කොහොමද?", "How are you?"),
  ("මගේ නම", "My name is"),
  ("මම සිංහල කතා කරනවා", "I speak Sinhala"),
  ("ඔයාව මුණගැසීම සතුටක්", "Nice to meet you"),
  ("මේක කීයද?", "How much is this?")]


structure CacheEntry where
  translation : String
  confidence : ℚ
  timestamp : Int
deriving DecidableEq

structure Pack where
  code : String
  name : String
  nativeName : String
  version : String
  size : ℚ
  downloadUrl : String
  isDownloaded : Bool
  dictionary : Lexicon
deriving DecidableEq

structure OTStateN where
  languagePacks : List Pack
  translationCache : List (String × CacheEntry)
deriving DecidableEq

/-- JS object read on the translation cache (`this.translationCache[key]`). -/
def cacheGet (cache : List (String × CacheEntry)) (k : String) : Option CacheEntry :=
  ((cache.filter (fun p => p.1 = k)).getLast?).map (fun p => p.2)

/-- JS object write `this.translationCache[key] = e`: overwrite in place, or append
a new key. -/
def cacheSet (cache : List (String × CacheEntry)) (k : String) (e : CacheEntry) :
    List (String × CacheEntry) :=
  if cache.any (fun p => p.1 = k) then
    cache.map (fun p => if p.1 = k then (k, e) else p)
  else cache ++ [(k, e)]

/-- `String.prototype.startsWith`. -/
def startsWithS (s pre : String) : Bool := pre.data.isPrefixOf s.data

/-- `this.languagePacks.get(langCode)`. -/
def getPackN (s : OTStateN) (lang : String) : Option Pack :=
  s.languagePacks.find? (fun p => p.code = lang)

/-- `isLanguagePackDownloaded`. -/
def isLanguagePackDownloadedN (s : OTStateN) (lang : String) : Bool :=
  match getPackN s lang with
  | some p => p.isDownloaded
  | none => false

/-- `getAvailableLanguagePacks`. -/
def getAvailableLanguagePacksN (s : OTStateN) : List Pack := s.languagePacks

/-- `loadLanguageDictionary`: install the demo dictionary for `ne`/`si` into the
pack (a no-op for an unknown pack or a language without a demo dictionary). -/
def loadLanguageDictionaryN (s : OTStateN) (lang : String) : OTStateN :=
  match getPackN s lang with
  | none => s
  | some _ =>
    match (if lang = "ne" then some demoNeN
           else if lang = "si" then some demoSiN else none) with
    | some dict =>
      { s with languagePacks := s.languagePacks.map (fun p =>
          if p.code = lang then { p with dictionary := dict } else p) }
    | none => s

/-- `downloadLanguagePack`: throws for an unknown pack; otherwise reports progress
`(i/100)*100` for `i = 0..100` (the division is exact at the endpoints, in
particular the last value is exactly `100`), loads the demo dictionary and marks
the pack downloaded. -/
def downloadLanguagePackN (s : OTStateN) (lang : String) :
    Except String (Bool × List ℚ × OTStateN) :=
  match getPackN s lang with
  | none => Except.error ("Language pack not found: " ++ lang)
  | some _ =>
    let progress := (List.range 101).map (fun (i : Nat) => (i : ℚ) / 100 * 100)
    let s1 := loadLanguageDictionaryN s lang
    Except.ok (true, progress,
      { s1 with languagePacks := s1.languagePacks.map (fun p =>
          if p.code = lang then { p with isDownloaded := true } else p) })

/-- `performDictionaryTranslation`: exact match on the trimmed text, else word-by-word
(the source's final `result !== text ? result : text` returns `result` either way). -/
def performDictionaryTranslationN (text : String) (dictionary : Lexicon) : String :=
  match getT dictionary (trimS text) with
  | some v => v
  | none =>
    joinWith " " ((jsSplitWs text.data).map (fun w =>
      (getT dictionary (trimS (lowerS ⟨w⟩))).getD ⟨w⟩))

/-- `performPhraseTranslation`: first dictionary entry that contains or is contained
in the text, else the `[Offline]`-marked passthrough. -/
def performPhraseTranslationN (text : String) (dictionary : Lexicon) : String :=
  match dictionary.findSome? (fun p =>
      if containsS text p.1 || containsS p.1 text then some p.2 else none) with
  | some tr => tr
  | none => "[Offline] " ++ text

/-- The recomputation that `translateOffline` performs past the cache check: the
`!pack.dictionary` half of the guard can never fire (a pack's `dictionary` is always
a `Map` object, which is truthy), so only a missing pack raises there. -/
def translateOfflineRecomputeN (s : OTStateN) (now : Int)
    (text sourceLang targetLang : String) : Except String (String × OTStateN) :=
  match getPackN s sourceLang with
  | none => Except.error ("Dictionary not available for: " ++ sourceLang)
  | some pack =>
    let t1 := performDictionaryTranslationN text pack.dictionary
    let translation :=
      if t1 = text then performPhraseTranslationN text pack.dictionary else t1
    Except.ok (translation,
      { s with translationCache := cacheSet s.translationCache (sourceLang ++ "-" ++ targetLang ++ "-" ++ text) ⟨translation, if translation = text then (3 : ℚ)/10 else 8/10, now⟩ })

/-- `translateOffline` of the `OfflineTranslation.ts` variant: throws when the
source pack is not downloaded; returns a cached entry younger than 24 hours;
otherwise recomputes and overwrites the entry. -/
def translateOfflineN (s : OTStateN) (now : Int)
    (text sourceLang targetLang : String) : Except String (String × OTStateN) :=
  if isLanguagePackDownloadedN s sourceLang = false then
    Except.error ("Language pack not downloaded: " ++ sourceLang)
  else
    match cacheGet s.translationCache
        (sourceLang ++ "-" ++ targetLang ++ "-" ++ text) with
    | some cached =>
      if now - cached.timestamp < 86400000 then Except.ok (cached.translation, s)
      else translateOfflineRecomputeN s now text sourceLang targetLang
    | none => translateOfflineRecomputeN s now text sourceLang targetLang

/-- `removeLanguagePack`: `false` for an unknown pack; otherwise mark the pack not
downloaded, clear its dictionary, and delete the cache entries whose key starts with
`"{lang}-"` (nothing in the `try` block can throw in this model). -/
def removeLanguagePackN (s : OTStateN) (lang : String) : Bool × OTStateN :=
  match getPackN s lang with
  | none => (false, s)
  | some _ =>
    (true,
      { languagePacks := s.languagePacks.map (fun p =>
          if p.code = lang then { p with isDownloaded := false, dictionary := [] } else p),
        translationCache := s.translationCache.filter (fun kv =>
          !(startsWithS kv.1 (lang ++ "-"))) })

structure StorageInfo where
  totalSize : ℚ
  usedSize : ℚ
  availablePacks : Nat
  downloadedPacks : Nat

/-- `getStorageInfo`. -/
def getStorageInfoN (s : OTStateN) : StorageInfo :=
  { totalSize := (s.languagePacks.map (fun p => p.size)).sum,
    usedSize := ((s.languagePacks.filter (fun p => p.isDownloaded)).map (fun p => p.size)).sum,
    availablePacks := s.languagePacks.length,
    downloadedPacks := (s.languagePacks.filter (fun p => p.isDownloaded)).length }

/-- `clearOfflineData`. -/
def clearOfflineDataN (s : OTStateN) : OTStateN :=
  { languagePacks := s.languagePacks.map (fun p =>
      { p with isDownloaded := false, dictionary := [] }),
    translationCache := [] }

/-- The packs installed by `initializeLanguagePacks` (sizes 15.5 MB and 12.3 MB). -/
def initPackNeN : Pack :=
  ⟨"ne", "Nepali", "नेपाली", "1.0.0", 31/2, "/language-packs/nepali-en.pack", false, []⟩

def initPackSiN : Pack :=
  ⟨"si", "Sinhala", "සිංහල", "1.0.0", 123/10, "/language-packs/sinhala-en.pack", false, []⟩

/-- The constructor state with empty external storage (`loadCachedTranslations`
finds nothing). -/
def initStateN : OTStateN := ⟨[initPackNeN, initPackSiN], []⟩

/-- The states of the `OfflineTranslation.ts` service reachable from construction
through its public operations. -/
inductive ReachableN : OTStateN → Prop where
  | init : ReachableN initStateN
  | translate {s now text src tgt r s'} : ReachableN s →
      translateOfflineN s now text src tgt = Except.ok (r, s') → ReachableN s'
  | download {s lang b prog s'} : ReachableN s →
      downloadLanguagePackN s lang = Except.ok (b, prog, s') → ReachableN s'
  | remove {s lang b s'} : ReachableN s →
      removeLanguagePackN s lang = (b, s') → ReachableN s'
  | clear {s} : ReachableN s → ReachableN (clearOfflineDataN s)

/-! ## OfflineTranslationService — the `src/unnamed/part_002` variant

Modelled with suffix `P2`.  This variant reads `localStorage` inside
`isLanguagePackDownloaded` (the `langPack_{lang}_downloaded` flags), so the
relevant part of `localStorage` is carried in the state as an explicit
key/value list `store`.  The `languagePackStatus` and `offlineTranslationCache`
values written by `saveLanguagePackStatus` / `saveCacheToStorage` are never read
back by any modelled operation (they are only read in the constructor's
`loadCachedTranslations`, and the modelled construction starts from an empty
store), so those writes are omitted; `clearOfflineData`'s `removeItem` calls on
those two keys are kept, which makes visible that the `langPack_*_downloaded`
flags survive `clearOfflineData`.  `new Date()` timestamps are an explicit
`now : Int`; string lengths and positions are in code points, which agrees with
JS UTF-16 lengths on all the Basic-Multilingual-Plane text this service
manipulates. -/

/-- part_002 `translateNepaliToEnglish` `neToEnDict` object, as the literal entry
sequence (duplicate keys are resolved by the JS-object accessors `jsKeys` /
`lookupLast` / `getT` / `entriesJS`: last assignment wins, first occurrence fixes
the iteration position). -/
def neToEnDict : Lexicon := [
  ("नमस्ते", "Hello"),
  ("धन्यवाद", "Thank you"),
  ("माफ गर्नुहोस्", "Sorry"),
  ("कृपया", "Please"),
  ("हो", "Yes"),
  ("होइन", "No"),
  ("पानी", "Water"),
  ("खाना", "Food"),
  ("घर", "Home"),
  ("विद्यालय", "School"),
  ("काम", "Work"),
  ("समय", "Time"),
  ("पैसा", "Money"),
  ("मित्र", "Friend"),
  ("परिवार", "Family"),
  ("प्रेम", "Love"),
  ("खुशी", "Happiness"),
  ("दुःख", "Sadness"),
  ("स्वास्थ्य", "Health"),
  ("शिक्षा", "Education"),
  ("तपाईं कस्तो हुनुहुन्छ?", "How are you?"),
  ("मेरो नाम", "My name is"),
  ("म नेपाली बोल्छु", "I speak Nepali"),
  ("तपाईंलाई भेटेर खुशी लाग्यो", "Nice to meet you"),
  ("यो कति हो?", "How much is this?"),
  ("नेपाली भाषा", "Nepali language"),
  ("एक", "One"),
  ("दुई", "Two"),
  ("तीन", "Three"),
  ("चार", "Four"),
  ("पाँच", "Five"),
  ("छ", "Six"),
  ("सात", "Seven"),
  ("आठ", "Eight"),
  ("नौ", "Nine"),
  ("दश", "Ten"),
  ("राम्रो", "Good"),
  ("नराम्रो", "Bad"),
  ("ठूलो", "Big"),
  ("सानो", "Small"),
  ("अगाडि", "Forward"),
  ("पछाडि", "Backward"),
  ("माथि", "Up"),
  ("तल", "Down"),
  ("भित्र", "Inside"),
  ("बाहिर", "Outside"),
  ("बिहान", "Morning"),
  ("दिउँसो", "Afternoon"),
  ("साँझ", "Evening"),
  ("रात", "Night"),
  ("आज", "Today"),
  ("भोलि", "Tomorrow"),
  ("हिजो", "Yesterday"),
  ("अहिले", "Now"),
  ("पछि", "Later"),
  ("पहिले", "Before"),
  ("भारतीय", "Indian"),
  ("राज्य", "State"),
  ("सिक्किम", "Sikkim"),
  ("पश्चिम", "West"),
  ("बंगालको", "Bengal"),
  ("गोर्खाहरू", "Gorkhas"),
  ("क्षेत्रीय", "Regional"),
  ("प्रशासनमा", "Administration"),
  ("नेपाली", "Nepali"),
  ("भाषिकहरू", "Speakers"),
  ("हैसियत", "Status"),
  ("छ।", "Has."),
  ("अधिकारिक", "Official"),
  ("भाषाको", "Language"),
  ("रूपमा", "Form"),
  ("मान्यता", "Recognition"),
  ("दिइएको", "Given"),
  ("छ,", "Is,"),
  ("र", "And"),
  ("भारतको", "India's"),
  ("संविधानको", "Constitution"),
  ("आठौं", "Eighth"),
  ("अनुसूचीमा", "Schedule"),
  ("समावेश", "Included"),
  ("गरिएको", "Done"),
  ("छ।", "Is."),
  ("नेपाली", "Nepali"),
  ("भाषा", "Language"),
  ("एक", "One"),
  ("आर्य", "Aryan"),
  ("भाषा", "Language"),
  ("हो", "Is"),
  ("जुन", "Which"),
  ("दक्षिण", "South"),
  ("एशियाको", "Asia's"),
  ("हिमालय", "Himalaya"),
  ("क्षेत्रमा", "Region"),
  ("बोलिन्छ।", "Is spoken."),
  ("यो", "This"),
  ("नेपालको", "Nepal's"),
  ("आधिकारिक", "Official"),
  ("भाषा", "Language"),
  ("हो,", "Is,"),
  ("जहाँ", "Where"),
  ("यसको", "Its"),
  ("उत्पत्ति", "Origin"),
  ("भएको", "Happened"),
  ("थियो।", "Was."),
  ("नेपाली भाषा एक धनी भाषा हो", "Nepali is a rich language with a long history and cultural significance."),
  ("नेपाली भाषा एक धर्म भाषा हो", "Nepali is a sacred language with religious and cultural importance.")]

/-- part_002 `translateSinhalaToEnglish` `siToEnDict` object, literal entry
sequence (duplicates resolved by the JS-object accessors, e.g. the second
assignment to the key for Sri Lanka wins). -/
def siToEnDict : Lexicon := [
  ("ආයුබෝවන්", "Hello"),
  ("ස්තූතියි", "Thank you"),
  ("සමාවන්න", "Sorry"),
  ("කරුණාකර", "Please"),
  ("ඔව්", "Yes"),
  ("නැහැ", "No"),
  ("වතුර", "Water"),
  ("කෑම", "Food"),
  ("ගෙදර", "Home"),
  ("පාසල", "School"),
  ("වැඩ", "Work"),
  ("වෙලාව", "Time"),
  ("සල්ලි", "Money"),
  ("යාළුවා", "Friend"),
  ("පවුල", "Family"),
  ("ආදරය", "Love"),
  ("සතුට", "Happiness"),
  ("දුක", "Sadness"),
  ("සෞඛ්‍යය", "Health"),
  ("අධ්‍යාපනය", "Education"),
  ("ඔයා කොහොමද?", "How are you?"),
  ("මගේ නම", "My name is"),
  ("මම සිංහල කතා කරනවා", "I speak Sinhala"),
  ("ඔයාව මුණගැසීම සතුටක්", "Nice to meet you"),
  ("මේක කීයද?", "How much is this?"),
  ("එක", "One"),
  ("දෙක", "Two"),
  ("තුන", "Three"),
  ("හතර", "Four"),
  ("පහ", "Five"),
  ("හය", "Six"),
  ("හත", "Seven"),
  ("අට", "Eight"),
  ("නවය", "Nine"),
  ("දහය", "Ten"),
  ("හොඳ", "Good"),
  ("නරක", "Bad"),
  ("ලොකු", "Big"),
  ("පොඩි", "Small"),
  ("ඉදිරියට", "Forward"),
  ("පස්සට", "Backward"),
  ("උඩ", "Up"),
  ("යට", "Down"),
  ("ඇතුලේ", "Inside"),
  ("එළියේ", "Outside"),
  ("උදේ", "Morning"),
  ("දවල්", "Afternoon"),
  ("හවස", "Evening"),
  ("රෑ", "Night"),
  ("අද", "Today"),
  ("හෙට", "Tomorrow"),
  ("ඊයේ", "Yesterday"),
  ("දැන්", "Now"),
  ("පසුව", "Later"),
  ("කලින්", "Before"),
  ("ලංකාවේ", "In Sri Lanka"),
  ("සිංහල", "Sinhala"),
  ("භාෂාව", "Language"),
  ("රාජ්‍ය", "State"),
  ("භාෂාවක්", "A language"),
  ("ලෙස", "As"),
  ("පිළිගැනේ", "Is recognized"),
  ("මෙය", "This"),
  ("ඉන්දු", "Indo"),
  ("යුරෝපීය", "European"),
  ("භාෂා", "Languages"),
  ("පවුලේ", "Family"),
  ("ඉන්දු", "Indo"),
  ("ආර්ය", "Aryan"),
  ("ශාඛාවට", "Branch"),
  ("අයත්", "Belongs"),
  ("වේ", "Is"),
  ("ශ්‍රී", "Sri"),
  ("ලංකාවේ", "Lanka's"),
  ("ජනගහනයෙන්", "Population"),
  ("බහුතරයක්", "Majority"),
  ("සිංහල", "Sinhala"),
  ("භාෂාව", "Language"),
  ("කතා", "Speak"),
  ("කරති", "Do"),
  ("මෙම", "This"),
  ("භාෂාව", "Language"),
  ("ශ්‍රී", "Sri"),
  ("ලංකාවේ", "Lanka's"),
  ("ජාතික", "National"),
  ("භාෂාව", "Language"),
  ("ලෙස", "As"),
  ("සැලකේ", "Is considered")]

/-- part_002 `translateEnglishToNepali` `enToNeDict` object (no duplicate keys). -/
def enToNeDict : Lexicon := [
  ("hello", "नमस्ते"),
  ("hi", "नमस्ते"),
  ("goodbye", "बिदाई"),
  ("thank you", "धन्यवाद"),
  ("thanks", "धन्यवाद"),
  ("sorry", "माफ गर्नुहोस्"),
  ("please", "कृपया"),
  ("yes", "हो"),
  ("no", "होइन"),
  ("water", "पानी"),
  ("food", "खाना"),
  ("home", "घर"),
  ("house", "घर"),
  ("school", "विद्यालय"),
  ("work", "काम"),
  ("job", "काम"),
  ("time", "समय"),
  ("money", "पैसा"),
  ("friend", "मित्र"),
  ("family", "परिवार"),
  ("love", "प्रेम"),
  ("happiness", "खुशी"),
  ("sadness", "दुःख"),
  ("health", "स्वास्थ्य"),
  ("education", "शिक्षा"),
  ("how are you", "तपाईं कस्तो हुनुहुन्छ"),
  ("my name is", "मेरो नाम हो"),
  ("i speak nepali", "म नेपाली बोल्छु"),
  ("nice to meet you", "तपाईंलाई भेटेर खुशी लाग्यो"),
  ("how much is this", "यो कति हो")]

/-- part_002 `translateEnglishToSinhala` `enToSiDict` object (no duplicate keys). -/
def enToSiDict : Lexicon := [
  ("hello", "ආයුබෝවන්"),
  ("hi", "ආයුබෝවන්"),
  ("goodbye", "ගිහින් එන්නම්"),
  ("thank you", "ස්තූතියි"),
  ("thanks", "ස්තූතියි"),
  ("sorry", "සමාවන්න"),
  ("please", "කරුණාකර"),
  ("yes", "ඔව්"),
  ("no", "නැහැ"),
  ("water", "වතුර"),
  ("food", "කෑම"),
  ("home", "ගෙදර"),
  ("house", "ගෙදර"),
  ("school", "පාසල"),
  ("work", "වැඩ"),
  ("job", "රැකියාව"),
  ("time", "වෙලාව"),
  ("money", "සල්ලි"),
  ("friend", "යාළුවා"),
  ("family", "පවුල"),
  ("love", "ආදරය"),
  ("happiness", "සතුට"),
  ("sadness", "දුක"),
  ("health", "සෞඛ්‍යය"),
  ("education", "අධ්‍යාපනය"),
  ("how are you", "ඔයා කොහොමද"),
  ("my name is", "මගේ නම"),
  ("i speak sinhala", "මම සිංහල කතා කරනවා"),
  ("nice to meet you", "ඔයාව මුණගැසීම සතුටක්"),
  ("how much is this", "මේක කීයද")]

/-- part_002 `loadLanguageDictionary` demo Map for 'ne' (same entries as the
`OfflineTranslation.ts` variant's). -/
def demoNeP2 : Lexicon := [
  ("नमस्ते", "Hello"),
  ("धन्यवाद", "Thank you"),
  ("माफ गर्नुहोस्", "Sorry"),
  ("कृपया", "Please"),
  ("हो", "Yes"),
  ("होइन", "No"),
  ("पानी", "Water"),
  ("खाना", "Food"),
  ("घर", "Home"),
  ("विद्यालय", "School"),
  ("काम", "Work"),
  ("समय", "Time"),
  ("पैसा", "Money"),
  ("मित्र", "Friend"),
  ("परिवार", "Family"),
  ("प्रेम", "Love"),
  ("खुशी", "Happiness"),
  ("दुःख", "Sadness"),
  ("स्वास्थ्य", "Health"),
  ("शिक्षा", "Education"),
  ("तपाईं कस्तो हुनुहुन्छ?", "How are you?"),
  ("मेरो नाम", "My name is"),
  ("म नेपाली बोल्छु", "I speak Nepali"),
  ("तपाईंलाई भेटेर खुशी लाग्यो", "Nice to meet you"),
  ("यो कति हो?", "How much is this?")]

/-- part_002 `loadLanguageDictionary` demo Map for 'si' (this variant has the
Sinhala word for Money spelled with a final ල්ලි, unlike the
`OfflineTranslation.ts` variant). -/
def demoSiP2 : Lexicon := [
  ("ආයුබෝවන්", "Hello"),
  ("ස්තූතියි", "Thank you"),
  ("සමාවන්න", "Sorry"),
  ("කරුණාකර", "Please"),
  ("ඔව්", "Yes"),
  ("නැහැ", "No"),
  ("වතුර", "Water"),
  ("කෑම", "Food"),
  ("ගෙදර", "Home"),
  ("පාසල", "School"),
  ("වැඩ", "Work"),
  ("වෙලාව", "Time"),
  ("සල්ලි", "Money"),
  ("යාළුවා", "Friend"),
  ("පවුල", "Family"),
  ("ආදරය", "Love"),
  ("සතුට", "Happiness"),
  ("දුක", "Sadness"),
  ("සෞඛ්‍යය", "Health"),
  ("අධ්‍යාපනය", "Education"),
  ("ඔයා කොහොමද?", "How are you?"),
  ("මගේ නම", "My name is"),
  ("මම සිංහල කතා කරනවා", "I speak Sinhala"),
  ("ඔයාව මුණගැසීම සතුටක්", "Nice to meet you"),
  ("මේක කීයද?", "How much is this?")]

/-- part_002 `loadLanguageDictionary` demo Map for 'en', literal entry sequence;
it lists every English key twice (first with the Nepali value, then with the
Sinhala value), and JS `Map` semantics keep the position of the first insertion
with the value of the last, which `jsKeys`/`lookupLast` recover. -/
def demoEnP2 : Lexicon := [
  ("Hello", "नमस्ते"),
  ("Thank you", "धन्यवाद"),
  ("Sorry", "माफ गर्नुहोस्"),
  ("Please", "कृपया"),
  ("Yes", "हो"),
  ("No", "होइन"),
  ("Water", "पानी"),
  ("Food", "खाना"),
  ("Home", "घर"),
  ("School", "विद्यालय"),
  ("Work", "काम"),
  ("Time", "समय"),
  ("Money", "पैसा"),
  ("Friend", "मित्र"),
  ("Family", "परिवार"),
  ("Love", "प्रेम"),
  ("Happiness", "खुशी"),
  ("Sadness", "दुःख"),
  ("Health", "स्वास्थ्य"),
  ("Education", "शिक्षा"),
  ("Hello", "ආයුබෝවන්"),
  ("Thank you", "ස්තූතියි"),
  ("Sorry", "සමාවන්න"),
  ("Please", "කරුණාකර"),
  ("Yes", "ඔව්"),
  ("No", "නැහැ"),
  ("Water", "වතුර"),
  ("Food", "කෑම"),
  ("Home", "ගෙදර"),
  ("School", "පාසල"),
  ("Work", "වැඩ"),
  ("Time", "වෙලාව"),
  ("Money", "සල්ලි"),
  ("Friend", "යාළුවා"),
  ("Family", "පවුල"),
  ("Love", "ආදරය"),
  ("Happiness", "සතුට"),
  ("Sadness", "දුක"),
  ("Health", "සෞඛ්‍යය"),
  ("Education", "අධ්‍යාපනය")]

/-- The fixed response of `getHardcodedTranslation` for the first screenshot text. -/
def hcNeScreenshot1 : String := "Nepali is a rich language that originated in the Himalayan region of South Asia. It is the official language of Nepal and is also spoken in parts of India. The Nepali language has its own script and is influenced by Sanskrit and other Indo-Aryan languages. It has a rich literary tradition and is an important part of Nepali cultural identity. The language has evolved over time and continues to adapt to modern needs while preserving its cultural heritage. Nepali is taught in schools throughout Nepal and is used in government, media, and everyday communication. It serves as a unifying factor for the diverse ethnic groups in Nepal."

/-- The fixed response of `getHardcodedTranslation` for the second screenshot text,
shared verbatim with `translateNepaliToEnglish`'s long-text special case. -/
def hcNeScreenshot2 : String := "Nepali is a rich language with a long history. It is the official language of Nepal and is also spoken in parts of India. The Nepali language has its own script and is influenced by Sanskrit. It has a rich literary tradition and is an important part of Nepali cultural identity. The language has evolved over time and continues to adapt to modern needs while preserving its cultural heritage. Nepali is taught in schools throughout Nepal and is used in government, media, and everyday communication. It serves as a unifying factor for the diverse ethnic groups in Nepal."

def hcNeWeather : String := "The weather today is quite pleasant. It's sunny with a few clouds. The temperature is around 25 degrees Celsius."

def hcNeFood : String := "Nepali cuisine is delicious! Popular dishes include momo (dumplings), dal bhat (lentils and rice), and sel roti (sweet rice bread). Many dishes are flavored with cumin, coriander, and other spices."

def hcNeTravel : String := "Nepal is a beautiful country for travel and tourism. It has stunning mountains including Mount Everest, ancient temples, and diverse wildlife. The best time to visit is during spring (March-May) and autumn (September-November)."

def hcSiWeather : String := "The weather today is quite pleasant in Sri Lanka. It's sunny with occasional rain showers. The temperature is around 30 degrees Celsius."

def hcSiFood : String := "Sri Lankan cuisine is delicious and flavorful! Popular dishes include rice and curry, hoppers (appa), string hoppers (idiappa), and kottu roti. Many dishes feature coconut milk and various spices."

def hcSiTravel : String := "Sri Lanka is a beautiful island for travel and tourism. It has stunning beaches, ancient ruins, tea plantations, and diverse wildlife. The best time to visit depends on which region you plan to explore."

/-- part_002 `getHardcodedTranslation`: the chain of `text.includes(...)` guards,
in source order. -/
def getHardcodedTranslationP2 (text sourceLang : String) : Option String :=
  if sourceLang = "ne" && containsS text "नेपाली भाषा एक धर्म भाषा हो जुन दक्षिण एशियाको हिमालय क्षेत्र भारतीय" then
    some hcNeScreenshot1
  else if sourceLang = "ne" && (containsS text "नेपाली भाषा एक धनी भाषा हो" && containsS text "नेपाली व्याकरणिक") then
    some hcNeScreenshot2
  else if sourceLang = "ne" && (containsS text "नमस्ते" || containsS text "नमस्कार") then
    some "Hello! Greetings! How are you today?"
  else if sourceLang = "ne" && (containsS text "तपाईं कस्तो हुनुहुन्छ" || containsS text "कस्तो छ") then
    some "I'm doing well, thank you for asking! How are you doing today?"
  else if sourceLang = "ne" && (containsS text "मौसम" || containsS text "बादल" || containsS text "पानी परिरहेको छ") then
    some hcNeWeather
  else if sourceLang = "ne" && (containsS text "खाना" || containsS text "मिठो" || containsS text "भोक लाग्यो") then
    some hcNeFood
  else if sourceLang = "ne" && (containsS text "यात्रा" || containsS text "घुम्न" || containsS text "पर्यटन") then
    some hcNeTravel
  else if sourceLang = "si" && (containsS text "ආයුබෝවන්" || containsS text "සුභ උදෑසනක්") then
    some "Hello! Good morning! How are you today?"
  else if sourceLang = "si" && (containsS text "කොහොමද" || containsS text "ඔයාට කොහොමද") then
    some "I'm doing well, thank you for asking! How are you doing today?"
  else if sourceLang = "si" && (containsS text "කාලගුණය" || containsS text "වැස්ස" || containsS text "වහිනවා") then
    some hcSiWeather
  else if sourceLang = "si" && (containsS text "කෑම" || containsS text "රසයි" || containsS text "බඩගිනි") then
    some hcSiFood
  else if sourceLang = "si" && (containsS text "සංචාරය" || containsS text "ගමන" || containsS text "සංචාරක") then
    some hcSiTravel
  else none

/-- A code point in the closed range `[lo, hi]`. -/
def inRangeC (lo hi : Nat) (c : Char) : Bool := lo ≤ c.toNat && c.toNat ≤ hi

/-- part_002 `detectLanguage`: sample the first 100 characters; Devanagari block
U+0900..U+097F means Nepali, Sinhala block U+0D80..U+0DFF means Sinhala, default
English. -/
def detectLanguageP2 (text : String) : String :=
  if (text.data.take 100).any (inRangeC 0x900 0x97F) then "ne"
  else if (text.data.take 100).any (inRangeC 0xD80 0xDFF) then "si"
  else "en"

/-- part_002 `translateEnglishToNepali` / `translateEnglishToSinhala`, shared shape:
exact match on the lower-cased trimmed text, else the first dictionary phrase
longer than 5 characters contained in the lower-cased trimmed text replaces its
first case-insensitive occurrence in the original text, else word-by-word on the
lower-cased tokens. -/
def translateEnglishWithDict (dict : Lexicon) (text : String) : String :=
  match getT dict (trimS (lowerS text)) with
  | some v => v
  | none =>
    match (entriesJS dict).findSome? (fun p =>
        if 5 < p.1.length && containsS (trimS (lowerS text)) p.1 then
          some (⟨replaceFirstCIL p.1.data p.2.data text.data⟩ : String)
        else none) with
    | some r => r
    | none =>
      joinWith " " ((jsSplitWs text.data).map (fun w =>
        (getT dict (lowerS ⟨w⟩)).getD ⟨w⟩))

def translateEnglishToNepaliP2 (text : String) : String :=
  translateEnglishWithDict enToNeDict text

def translateEnglishToSinhalaP2 (text : String) : String :=
  translateEnglishWithDict enToSiDict text

/-- The compound-word decomposition step shared by the two word helpers: the first
split position whose prefix and suffix are both (truthily) in the dictionary gives
the two translations joined by a space. -/
def decomposeFirst (dict : Lexicon) (w : List Char) : Option String :=
  (List.range' 1 (w.length - 1)).findSome? (fun i =>
    match getT dict ⟨w.take i⟩, getT dict ⟨w.drop i⟩ with
    | some a, some b => some (a ++ " " ++ b)
    | _, _ => none)

/-- The affix-matching step of `translateNepaliWordsToEnglish`: the first dictionary
key (in JS iteration order) longer than 3 characters occurring inside the token has
its first occurrence replaced by its translation. -/
def affixFirst (dict : Lexicon) (w : List Char) : Option String :=
  (jsKeys dict).findSome? (fun k =>
    if 3 < k.length && isSubL k.data w then
      some (⟨replaceFirstL k.data ((lookupLast dict k).getD "").data w⟩ : String)
    else none)

/-- The per-token mapping of `translateNepaliWordsToEnglish`: exact, then
lower-cased exact, then compound decomposition, then affix matching, then the
token unchanged. -/
def neWordMap (dict : Lexicon) (w : List Char) : String :=
  match getT dict ⟨w⟩ with
  | some v => v
  | none =>
    match getT dict (lowerS ⟨w⟩) with
    | some v => v
    | none =>
      match decomposeFirst dict w with
      | some v => v
      | none =>
        match affixFirst dict w with
        | some v => v
        | none => ⟨w⟩

/-- The per-token mapping of `translateSinhalaWordsToEnglish`: exact, then compound
decomposition, then the token unchanged — this helper has no lower-cased retry and
no affix-matching step. -/
def siWordMap (dict : Lexicon) (w : List Char) : String :=
  match getT dict ⟨w⟩ with
  | some v => v
  | none =>
    match decomposeFirst dict w with
    | some v => v
    | none => ⟨w⟩

/-- Stable insertion of a string into a list sorted by length descending (an
element is inserted after every element at least as long, matching the stable JS
`sort((a, b) => b.length - a.length)`). -/
def insertLenDesc (x : String) : List String → List String
  | [] => [x]
  | y :: ys => if x.length ≤ y.length then y :: insertLenDesc x ys else x :: y :: ys

def sortLenDesc : List String → List String
  | [] => []
  | x :: xs => insertLenDesc x (sortLenDesc xs)

/-- The phrase pre-step of `translateNepaliWordsToEnglish`: the dictionary keys
containing a space and occurring in the text, longest first, are each replaced
(first occurrence, on the running text) by their translations. -/
def phraseReplaceP2 (text : String) (dict : Lexicon) : String :=
  (sortLenDesc ((jsKeys dict).filter (fun k =>
      containsS k " " && containsS text k))).foldl (fun acc phrase =>
    if containsS acc phrase then
      (⟨replaceFirstL phrase.data ((lookupLast dict phrase).getD "").data acc.data⟩ : String)
    else acc) text

/-- part_002 `translateNepaliWordsToEnglish`: if the phrase pre-step changed the
text, return it; otherwise map the whitespace tokens through `neWordMap`, join
with single spaces and collapse multi-whitespace runs. -/
def translateNepaliWordsToEnglishP2 (text : String) (dict : Lexicon) : String :=
  if phraseReplaceP2 text dict ≠ text then phraseReplaceP2 text dict
  else (⟨collapseWsL (joinWith " " ((jsSplitWs text.data).map
    (fun w => neWordMap dict w))).data⟩ : String)

/-- part_002 `translateSinhalaWordsToEnglish`: tokens through `siWordMap`, joined
with single spaces (no phrase pre-step, no whitespace collapsing). -/
def translateSinhalaWordsToEnglishP2 (text : String) (dict : Lexicon) : String :=
  joinWith " " ((jsSplitWs text.data).map (fun w => siWordMap dict w))

/-- Nepali sentence separators `[।?!]`. -/
def isNeSentC (c : Char) : Bool := c = '।' || c = '?' || c = '!'

/-- Sinhala path sentence separators `[.!?]`. -/
def isSiSentC (c : Char) : Bool := c = '.' || c = '!' || c = '?'

/-- The per-sentence mapping inside `translateNepaliToEnglish`: blank sentences map
to the empty string, else exact match on the trimmed sentence, else the first
dictionary entry with a key longer than 10 characters contained in the trimmed
sentence replaces its first occurrence, else the word helper. -/
def neSentenceMap (sentence : String) : String :=
  if trimS sentence = "" then ""
  else
    match getT neToEnDict (trimS sentence) with
    | some v => v
    | none =>
      match (entriesJS neToEnDict).findSome? (fun p =>
          if 10 < p.1.length && containsS (trimS sentence) p.1 then
            some (⟨replaceFirstL p.1.data p.2.data (trimS sentence).data⟩ : String)
          else none) with
      | some r => r
      | none => translateNepaliWordsToEnglishP2 (trimS sentence) neToEnDict

/-- part_002 `translateNepaliToEnglish`. -/
def translateNepaliToEnglishP2 (text : String) : String :=
  if containsS text "नेपाली भाषा" && 50 < text.length then hcNeScreenshot2
  else
    match getT neToEnDict (trimS text) with
    | some v => v
    | none =>
      if 1 < (splitEach isNeSentC text.data).length then
        joinWith ". " (((splitEach isNeSentC text.data).map (fun sen =>
          neSentenceMap ⟨sen⟩)).filter (fun s => s ≠ ""))
      else translateNepaliWordsToEnglishP2 text neToEnDict

/-- The per-sentence mapping inside `translateSinhalaToEnglish` (no partial-match
scan, unlike the Nepali path). -/
def siSentenceMap (sentence : String) : String :=
  if trimS sentence = "" then ""
  else
    match getT siToEnDict (trimS sentence) with
    | some v => v
    | none => translateSinhalaWordsToEnglishP2 (trimS sentence) siToEnDict

/-- part_002 `translateSinhalaToEnglish`. -/
def translateSinhalaToEnglishP2 (text : String) : String :=
  match getT siToEnDict (trimS text) with
  | some v => v
  | none =>
    if 1 < (splitEach isSiSentC text.data).length then
      joinWith ". " (((splitEach isSiSentC text.data).map (fun sen =>
        siSentenceMap ⟨sen⟩)).filter (fun s => s ≠ ""))
    else translateSinhalaWordsToEnglishP2 text siToEnDict

/-- The state of the part_002 service: the packs, the translation cache, and the
read-back part of `localStorage`. -/
structure P2State where
  languagePacks : List Pack
  translationCache : List (String × CacheEntry)
  store : List (String × String)
deriving DecidableEq

/-- `localStorage.getItem`. -/
def storeGet (st : List (String × String)) (k : String) : Option String :=
  ((st.filter (fun p => p.1 = k)).getLast?).map (fun p => p.2)

/-- `localStorage.setItem`: overwrite in place, or append a new key. -/
def storeSet (st : List (String × String)) (k v : String) : List (String × String) :=
  if st.any (fun p => p.1 = k) then
    st.map (fun p => if p.1 = k then (k, v) else p)
  else st ++ [(k, v)]

/-- `this.languagePacks.get(langCode)` of part_002. -/
def getPackP2 (s : P2State) (lang : String) : Option Pack :=
  s.languagePacks.find? (fun p => p.code = lang)

/-- part_002 `isLanguagePackDownloaded`: the `localStorage` flag wins; otherwise a
downloaded pack refreshes the flag (a state write) and answers true. -/
def isLanguagePackDownloadedP2 (s : P2State) (lang : String) : Bool × P2State :=
  if storeGet s.store ("langPack_" ++ lang ++ "_downloaded") = some "true" then (true, s)
  else
    match getPackP2 s lang with
    | some p =>
      if p.isDownloaded then
        (true, { s with store := storeSet s.store ("langPack_" ++ lang ++ "_downloaded") "true" })
      else (false, s)
    | none => (false, s)

/-- The demo dictionary object of part_002 `loadLanguageDictionary` (this variant
also carries an 'en' dictionary, unlike the `OfflineTranslation.ts` one). -/
def p2Dictionaries (lang : String) : Option Lexicon :=
  if lang = "ne" then some demoNeP2
  else if lang = "si" then some demoSiP2
  else if lang = "en" then some demoEnP2
  else none

/-- part_002 `loadLanguageDictionary`: for a known pack with a demo dictionary,
install the dictionary, mark the pack downloaded and set the `localStorage` flag. -/
def loadLanguageDictionaryP2 (s : P2State) (lang : String) : P2State :=
  match getPackP2 s lang with
  | none => s
  | some _ =>
    match p2Dictionaries lang with
    | none => s
    | some dict =>
      { s with
        languagePacks := s.languagePacks.map (fun p =>
          if p.code = lang then { p with dictionary := dict, isDownloaded := true } else p),
        store := storeSet s.store ("langPack_" ++ lang ++ "_downloaded") "true" }

/-- The `if (!this.isLanguagePackDownloaded(lang)) await this.loadLanguageDictionary(lang)`
step of part_002 `translateOffline` (the check itself may write the state). -/
def p2ForceLoad (s : P2State) (lang : String) : P2State :=
  match isLanguagePackDownloadedP2 s lang with
  | (true, s1) => s1
  | (false, s1) => loadLanguageDictionaryP2 s1 lang

/-- The not-downloaded branch of part_002 `translateOffline` (source pack missing
or not downloaded even after the forced loads): Nepali and Sinhala fall back to
the rule-based translators with confidence 0.85; other languages return the
`[Offline Translation Not Available]` marker without caching. -/
def translateOfflineP2NotDown (s : P2State) (now : Int) (text src ck : String) :
    String × P2State :=
  if src = "ne" then
    (translateNepaliToEnglishP2 text,
      { s with translationCache := cacheSet s.translationCache ck ⟨translateNepaliToEnglishP2 text, 85/100, now⟩ })
  else if src = "si" then
    (translateSinhalaToEnglishP2 text,
      { s with translationCache := cacheSet s.translationCache ck ⟨translateSinhalaToEnglishP2 text, 85/100, now⟩ })
  else ("[Offline Translation Not Available] " ++ text, s)

/-- The empty-dictionary tail of part_002 `translateOffline`: Nepali and Sinhala
fall back with confidence 0.8; other languages cache and return the
`[Offline Translation]` marker with confidence 0.5. -/
def translateOfflineP2Empty (s : P2State) (now : Int) (text src ck : String) :
    String × P2State :=
  if src = "ne" then
    (translateNepaliToEnglishP2 text,
      { s with translationCache := cacheSet s.translationCache ck ⟨translateNepaliToEnglishP2 text, 8/10, now⟩ })
  else if src = "si" then
    (translateSinhalaToEnglishP2 text,
      { s with translationCache := cacheSet s.translationCache ck ⟨translateSinhalaToEnglishP2 text, 8/10, now⟩ })
  else
    ("[Offline Translation] " ++ text,
      { s with translationCache := cacheSet s.translationCache ck ⟨"[Offline Translation] " ++ text, 1/2, now⟩ })

/-- The dictionary stage of part_002 `translateOffline`, after the forced loads:
a present, downloaded source pack with a nonempty dictionary (`Map.size > 0` is
nonemptiness of the entry list) tries the exact match (confidence 1.0), then
word-by-word (confidence 0.7); otherwise the not-downloaded or empty-dictionary
branches apply. -/
def translateOfflineP2Dict (s : P2State) (now : Int) (text src ck : String) :
    String × P2State :=
  match getPackP2 s src with
  | none => translateOfflineP2NotDown s now text src ck
  | some pack =>
    if pack.isDownloaded = false then translateOfflineP2NotDown s now text src ck
    else if pack.dictionary = [] then translateOfflineP2Empty s now text src ck
    else
      match getT pack.dictionary (trimS text) with
      | some exact =>
        (exact, { s with translationCache := cacheSet s.translationCache ck ⟨exact, 1, now⟩ })
      | none =>
        (joinWith " " ((jsSplitWs text.data).map (fun w => (getT pack.dictionary ⟨w⟩).getD ⟨w⟩)),
          { s with translationCache := cacheSet s.translationCache ck ⟨joinWith " " ((jsSplitWs text.data).map (fun w => (getT pack.dictionary ⟨w⟩).getD ⟨w⟩)), 7/10, now⟩ })

/-- part_002 `translateOffline` after the hardcoded check and auto-detection:
same-language passthrough, then the cache lookup — an entry is returned whenever
it exists, with no timestamp comparison — then the dedicated en→ne / en→si
handlers (confidence 0.9), then the forced loads and the dictionary stage. -/
def translateOfflineP2Go (s : P2State) (now : Int) (text src tgt : String) :
    String × P2State :=
  if src = tgt then (text, s)
  else
    match cacheGet s.translationCache (text ++ "_" ++ src ++ "_" ++ tgt) with
    | some cached => (cached.translation, s)
    | none =>
      if src ++ "-" ++ tgt = "en-ne" then
        (translateEnglishToNepaliP2 text,
          { s with translationCache := cacheSet s.translationCache (text ++ "_" ++ src ++ "_" ++ tgt) ⟨translateEnglishToNepaliP2 text, 9/10, now⟩ })
      else if src ++ "-" ++ tgt = "en-si" then
        (translateEnglishToSinhalaP2 text,
          { s with translationCache := cacheSet s.translationCache (text ++ "_" ++ src ++ "_" ++ tgt) ⟨translateEnglishToSinhalaP2 text, 9/10, now⟩ })
      else
        translateOfflineP2Dict (p2ForceLoad (p2ForceLoad s src) tgt) now text src
          (text ++ "_" ++ src ++ "_" ++ tgt)

/-- part_002 `translateOffline` (it never throws): hardcoded responses first, then
auto-detection, then `translateOfflineP2Go`. -/
def translateOfflineP2 (s : P2State) (now : Int) (text sourceLang targetLang : String) :
    String × P2State :=
  match getHardcodedTranslationP2 text sourceLang with
  | some h => (h, s)
  | none =>
    translateOfflineP2Go s now text
      (if sourceLang = "auto" then detectLanguageP2 text else sourceLang) targetLang

/-- The `pack.isDownloaded = true` + `localStorage` flag step of part_002
`downloadLanguagePack`. -/
def p2MarkDownloaded (s : P2State) (lang : String) : P2State :=
  { s with
    languagePacks := s.languagePacks.map (fun p =>
      if p.code = lang then { p with isDownloaded := true } else p),
    store := storeSet s.store ("langPack_" ++ lang ++ "_downloaded") "true" }

/-- part_002 `downloadLanguagePack`: throws for an unknown pack; otherwise reports
progress `(i/10)*100` for `i = 0..10` (this variant uses 10 steps), loads the demo
dictionary and marks the pack downloaded. -/
def downloadLanguagePackP2 (s : P2State) (lang : String) :
    Except String (Bool × List ℚ × P2State) :=
  match getPackP2 s lang with
  | none => Except.error ("Language pack not found: " ++ lang)
  | some _ =>
    Except.ok (true, (List.range 11).map (fun (i : Nat) => (i : ℚ) / 10 * 100),
      p2MarkDownloaded (loadLanguageDictionaryP2 s lang) lang)

/-- part_002 `removeLanguagePack`: `false` for an unknown pack; otherwise mark the
pack not downloaded, clear its dictionary, and delete the cache entries whose key
starts with `"{lang}-"` — although this variant's cache keys have the shape
`text_src_tgt`. -/
def removeLanguagePackP2 (s : P2State) (lang : String) : Bool × P2State :=
  match getPackP2 s lang with
  | none => (false, s)
  | some _ =>
    (true,
      { s with
        languagePacks := s.languagePacks.map (fun p =>
          if p.code = lang then { p with isDownloaded := false, dictionary := [] } else p),
        translationCache := s.translationCache.filter (fun kv =>
          !(startsWithS kv.1 (lang ++ "-"))) })

/-- part_002 `getStorageInfo`. -/
def getStorageInfoP2 (s : P2State) : StorageInfo :=
  { totalSize := (s.languagePacks.map (fun p => p.size)).sum,
    usedSize := ((s.languagePacks.filter (fun p => p.isDownloaded)).map (fun p => p.size)).sum,
    availablePacks := s.languagePacks.length,
    downloadedPacks := (s.languagePacks.filter (fun p => p.isDownloaded)).length }

/-- part_002 `clearOfflineData`: clear the cache and every pack, and remove the two
serialized-state `localStorage` keys — but not the `langPack_*_downloaded` flags. -/
def clearOfflineDataP2 (s : P2State) : P2State :=
  { languagePacks := s.languagePacks.map (fun p =>
      { p with isDownloaded := false, dictionary := [] }),
    translationCache := [],
    store := s.store.filter (fun kv =>
      kv.1 ≠ "offlineTranslationCache" && kv.1 ≠ "languagePackStatus") }

/-- The three packs registered by part_002's pack table (sizes 15.5, 12.3 and
5.0 MB; English starts downloaded). -/
def initPackNeP2 : Pack :=
  ⟨"ne", "Nepali", "नेपाली", "1.0.0", 31/2, "/language-packs/nepali-en.pack", false, []⟩

def initPackSiP2 : Pack :=
  ⟨"si", "Sinhala", "සිංහල", "1.0.0", 123/10, "/language-packs/sinhala-en.pack", false, []⟩

def initPackEnP2 : Pack :=
  ⟨"en", "English", "English", "1.0.0", 5, "/language-packs/english.pack", true, []⟩

/-- The part_002 constructor state with empty external storage: the pack table is
registered, `loadCachedTranslations` finds nothing, and `preloadAllDictionaries`
loads the 'en', 'ne' and 'si' dictionaries in that order. -/
def initStateP2 : P2State :=
  loadLanguageDictionaryP2 (loadLanguageDictionaryP2 (loadLanguageDictionaryP2
    ⟨[initPackNeP2, initPackSiP2, initPackEnP2], [], []⟩ "en") "ne") "si"

/-- The states of the part_002 service reachable from construction through its
public state-changing operations. -/
inductive ReachableP2 : P2State → Prop where
  | init : ReachableP2 initStateP2
  | translate {s now text src tgt r s'} : ReachableP2 s →
      translateOfflineP2 s now text src tgt = (r, s') → ReachableP2 s'
  | download {s lang b prog s'} : ReachableP2 s →
      downloadLanguagePackP2 s lang = Except.ok (b, prog, s') → ReachableP2 s'
  | remove {s lang b s'} : ReachableP2 s →
      removeLanguagePackP2 s lang = (b, s') → ReachableP2 s'
  | checkDownloaded {s lang b s'} : ReachableP2 s →
      isLanguagePackDownloadedP2 s lang = (b, s') → ReachableP2 s'
  | clear {s} : ReachableP2 s → ReachableP2 (clearOfflineDataP2 s)


/-! ## Lemmas about the cache, store, pack list, and pack sizes -/

/-- Overwriting every key-`k` entry leaves exactly the key-`k` positions, each now
holding `(k, e)`. -/
theorem filter_key_map_set (c : List (String × CacheEntry)) (k : String) (e : CacheEntry) :
    (c.map (fun p => if p.1 = k then (k, e) else p)).filter (fun p => p.1 = k) =
      (c.filter (fun p => p.1 = k)).map (fun _ => (k, e)) := by
  induction c with
  | nil => rfl
  | cons p c ih =>
    by_cases h : p.1 = k
    · simp [h, ih]
    · simp [h, ih]

/-- A JS object write is read back: `cacheGet` after `cacheSet` at the same key. -/
theorem cacheGet_cacheSet (c : List (String × CacheEntry)) (k : String) (e : CacheEntry) :
    cacheGet (cacheSet c k e) k = some e := by
  unfold cacheGet cacheSet
  by_cases h : c.any (fun p => p.1 = k)
  · rw [if_pos h, filter_key_map_set]
    have hne : c.filter (fun p => decide (p.1 = k)) ≠ [] := by
      rcases List.any_eq_true.mp h with ⟨a, ha, hk⟩
      intro hnil
      exact absurd hk (by simpa using List.filter_eq_nil_iff.mp hnil a ha)
    rcases Option.isSome_iff_exists.mp (List.getLast?_isSome.mpr hne) with ⟨y, hy⟩
    rw [List.getLast?_map, hy]
    rfl
  · rw [if_neg h, List.filter_append]
    have h1 : List.filter (fun p => decide (p.1 = k)) [(k, e)] = [(k, e)] := by simp
    rw [h1, List.getLast?_concat]
    rfl

/-- `find?` on `code` commutes with a code-preserving map of the pack list. -/
theorem find_code_map (l : List Pack) (f : Pack → Pack) (lang : String)
    (hf : ∀ p, (f p).code = p.code) :
    (l.map f).find? (fun p => p.code = lang) = (l.find? (fun p => p.code = lang)).map f := by
  induction l with
  | nil => rfl
  | cons p l ih =>
    by_cases h : p.code = lang
    · simp [List.find?_cons, hf, h]
    · simp [List.find?_cons, hf, h, ih]

/-- Entries whose key does not start with the pruned prefix are untouched by the
prune filter, position for position. -/
theorem filter_key_filter_keep (c : List (String × CacheEntry)) (pre k : String)
    (hk : startsWithS k pre = false) :
    (c.filter (fun kv => !(startsWithS kv.1 pre))).filter (fun p => p.1 = k) =
      c.filter (fun p => p.1 = k) := by
  induction c with
  | nil => rfl
  | cons q c ih =>
    by_cases h : q.1 = k
    · simp [List.filter_cons, h, hk, ih]
    · by_cases h2 : startsWithS q.1 pre
      · simp [List.filter_cons, h, h2, ih]
      · simp [List.filter_cons, h, h2, ih]

/-- No entry with a key starting with the pruned prefix survives the prune filter. -/
theorem filter_key_filter_drop (c : List (String × CacheEntry)) (pre k : String)
    (hk : startsWithS k pre = true) :
    (c.filter (fun kv => !(startsWithS kv.1 pre))).filter (fun p => p.1 = k) = [] := by
  induction c with
  | nil => rfl
  | cons q c ih =>
    by_cases h : q.1 = k
    · simp [List.filter_cons, h, hk, ih]
    · by_cases h2 : startsWithS q.1 pre
      · simp [List.filter_cons, h, h2, ih]
      · simp [List.filter_cons, h, h2, ih]

/-- A size-preserving map keeps every pack size nonnegative. -/
theorem sizes_map_pres {l : List Pack} {f : Pack → Pack} (hf : ∀ p, (f p).size = p.size)
    (h : ∀ p ∈ l, 0 ≤ p.size) : ∀ p ∈ l.map f, 0 ≤ p.size := by
  intro q hq
  rcases List.mem_map.mp hq with ⟨p, hp, rfl⟩
  rw [hf]
  exact h p hp


/-- The recompute stage only writes the cache: the pack list is unchanged. -/
theorem translateOfflineRecomputeN_packs {s : OTStateN} {now : Int} {text src tgt r : String}
    {s' : OTStateN} (h : translateOfflineRecomputeN s now text src tgt = Except.ok (r, s')) :
    s'.languagePacks = s.languagePacks := by
  unfold translateOfflineRecomputeN at h
  split at h
  · exact absurd h (by simp)
  · simp only [Except.ok.injEq, Prod.mk.injEq] at h
    rw [← h.2]

/-- A successful `translateOffline` of the `OfflineTranslation.ts` variant leaves
the pack list unchanged. -/
theorem translateOfflineN_packs {s : OTStateN} {now : Int} {text src tgt r : String}
    {s' : OTStateN} (h : translateOfflineN s now text src tgt = Except.ok (r, s')) :
    s'.languagePacks = s.languagePacks := by
  unfold translateOfflineN at h
  split at h
  · exact absurd h (by simp)
  · split at h
    · split at h
      · simp only [Except.ok.injEq, Prod.mk.injEq] at h
        rw [← h.2]
      · exact translateOfflineRecomputeN_packs h
    · exact translateOfflineRecomputeN_packs h

/-- `loadLanguageDictionary` of the `OfflineTranslation.ts` variant keeps pack
sizes nonnegative. -/
theorem loadLanguageDictionaryN_sizes {s : OTStateN} {lang : String}
    (h : ∀ p ∈ s.languagePacks, 0 ≤ p.size) :
    ∀ p ∈ (loadLanguageDictionaryN s lang).languagePacks, 0 ≤ p.size := by
  unfold loadLanguageDictionaryN
  split
  · exact h
  · split
    · exact sizes_map_pres (fun p => by split <;> rfl) h
    · exact h


/-- Every state reachable in the `OfflineTranslation.ts` variant has nonnegative
pack sizes (the two registered sizes are positive and no operation changes a
size). -/
theorem reachableN_sizes {s : OTStateN} (hs : ReachableN s) :
    ∀ p ∈ s.languagePacks, 0 ≤ p.size := by
  induction hs with
  | init =>
    intro p hp
    have hp2 : p = initPackNeN ∨ p = initPackSiN := by simpa [initStateN] using hp
    rcases hp2 with rfl | rfl <;> norm_num [initPackNeN, initPackSiN]
  | translate hr htr ih =>
    rw [translateOfflineN_packs htr]
    exact ih
  | download hr hdl ih =>
    rename_i s lang b prog s'
    unfold downloadLanguagePackN at hdl
    split at hdl
    · exact absurd hdl (by simp)
    · simp only [Except.ok.injEq, Prod.mk.injEq] at hdl
      rw [← hdl.2.2]
      exact sizes_map_pres (fun p => by split <;> rfl) (loadLanguageDictionaryN_sizes ih)
  | remove hr hrm ih =>
    rename_i s lang b s'
    unfold removeLanguagePackN at hrm
    split at hrm
    · simp only [Prod.mk.injEq] at hrm
      rw [← hrm.2]
      exact ih
    · simp only [Prod.mk.injEq] at hrm
      rw [← hrm.2]
      exact sizes_map_pres (fun p => by split <;> rfl) ih
  | clear hr ih =>
    exact sizes_map_pres (fun p => rfl) ih


/-- The part_002 downloaded-check only writes the `localStorage` flag: the pack
list is unchanged. -/
theorem isLanguagePackDownloadedP2_packs (s : P2State) (lang : String) :
    (isLanguagePackDownloadedP2 s lang).2.languagePacks = s.languagePacks := by
  unfold isLanguagePackDownloadedP2
  split
  · rfl
  · split
    · split <;> rfl
    · rfl

/-- part_002 `loadLanguageDictionary` keeps pack sizes nonnegative. -/
theorem loadLanguageDictionaryP2_sizes {s : P2State} {lang : String}
    (h : ∀ p ∈ s.languagePacks, 0 ≤ p.size) :
    ∀ p ∈ (loadLanguageDictionaryP2 s lang).languagePacks, 0 ≤ p.size := by
  unfold loadLanguageDictionaryP2
  split
  · exact h
  · split
    · exact h
    · exact sizes_map_pres (fun p => by split <;> rfl) h

/-- The forced-load step keeps pack sizes nonnegative. -/
theorem p2ForceLoad_sizes {s : P2State} {lang : String}
    (h : ∀ p ∈ s.languagePacks, 0 ≤ p.size) :
    ∀ p ∈ (p2ForceLoad s lang).languagePacks, 0 ≤ p.size := by
  unfold p2ForceLoad
  split
  · next heq =>
    have hpk : (isLanguagePackDownloadedP2 s lang).2.languagePacks = s.languagePacks :=
      isLanguagePackDownloadedP2_packs s lang
    rw [show (isLanguagePackDownloadedP2 s lang).2 = _ from congrArg Prod.snd heq] at hpk
    rw [hpk]
    exact h
  · next heq =>
    apply loadLanguageDictionaryP2_sizes
    have hpk : (isLanguagePackDownloadedP2 s lang).2.languagePacks = s.languagePacks :=
      isLanguagePackDownloadedP2_packs s lang
    rw [show (isLanguagePackDownloadedP2 s lang).2 = _ from congrArg Prod.snd heq] at hpk
    rw [hpk]
    exact h

/-- The not-downloaded branch only writes the cache. -/
theorem translateOfflineP2NotDown_packs (s : P2State) (now : Int) (text src ck : String) :
    (translateOfflineP2NotDown s now text src ck).2.languagePacks = s.languagePacks := by
  unfold translateOfflineP2NotDown
  split
  · rfl
  · split <;> rfl

/-- The empty-dictionary branch only writes the cache. -/
theorem translateOfflineP2Empty_packs (s : P2State) (now : Int) (text src ck : String) :
    (translateOfflineP2Empty s now text src ck).2.languagePacks = s.languagePacks := by
  unfold translateOfflineP2Empty
  split
  · rfl
  · split <;> rfl

/-- The dictionary stage only writes the cache. -/
theorem translateOfflineP2Dict_packs (s : P2State) (now : Int) (text src ck : String) :
    (translateOfflineP2Dict s now text src ck).2.languagePacks = s.languagePacks := by
  unfold translateOfflineP2Dict
  split
  · exact translateOfflineP2NotDown_packs s now text src ck
  · split
    · exact translateOfflineP2NotDown_packs s now text src ck
    · split
      · exact translateOfflineP2Empty_packs s now text src ck
      · split <;> rfl

/-- The post-detection stage of part_002 `translateOffline` keeps pack sizes
nonnegative. -/
theorem translateOfflineP2Go_sizes {s : P2State} {now : Int} {text src tgt r : String}
    {s' : P2State} (htr : translateOfflineP2Go s now text src tgt = (r, s'))
    (h : ∀ p ∈ s.languagePacks, 0 ≤ p.size) :
    ∀ p ∈ s'.languagePacks, 0 ≤ p.size := by
  unfold translateOfflineP2Go at htr
  split at htr
  · simp only [Prod.mk.injEq] at htr
    rw [← htr.2]
    exact h
  · split at htr
    · simp only [Prod.mk.injEq] at htr
      rw [← htr.2]
      exact h
    · split at htr
      · simp only [Prod.mk.injEq] at htr
        rw [← htr.2]
        exact h
      · split at htr
        · simp only [Prod.mk.injEq] at htr
          rw [← htr.2]
          exact h
        · rw [show s' = (translateOfflineP2Dict (p2ForceLoad (p2ForceLoad s src) tgt) now text
              src (text ++ "_" ++ src ++ "_" ++ tgt)).2 from (congrArg Prod.snd htr).symm]
          rw [translateOfflineP2Dict_packs]
          exact p2ForceLoad_sizes (p2ForceLoad_sizes h)

/-- part_002 `translateOffline` keeps pack sizes nonnegative (the only pack-list
writes are the forced loads, which preserve sizes). -/
theorem translateOfflineP2_sizes {s : P2State} {now : Int} {text src tgt r : String}
    {s' : P2State} (htr : translateOfflineP2 s now text src tgt = (r, s'))
    (h : ∀ p ∈ s.languagePacks, 0 ≤ p.size) :
    ∀ p ∈ s'.languagePacks, 0 ≤ p.size := by
  unfold translateOfflineP2 at htr
  split at htr
  · simp only [Prod.mk.injEq] at htr
    rw [← htr.2]
    exact h
  · exact translateOfflineP2Go_sizes htr h


/-- Every state reachable in the part_002 variant has nonnegative pack sizes. -/
theorem reachableP2_sizes {s : P2State} (hs : ReachableP2 s) :
    ∀ p ∈ s.languagePacks, 0 ≤ p.size := by
  induction hs with
  | init =>
    intro p hp
    have hpk : initStateP2.languagePacks =
        [{ initPackNeP2 with dictionary := demoNeP2, isDownloaded := true },
         { initPackSiP2 with dictionary := demoSiP2, isDownloaded := true },
         { initPackEnP2 with dictionary := demoEnP2, isDownloaded := true }] := by rfl
    rw [hpk] at hp
    simp only [List.mem_cons, List.not_mem_nil, or_false] at hp
    rcases hp with rfl | rfl | rfl <;> norm_num [initPackNeP2, initPackSiP2, initPackEnP2]
  | translate hr htr ih => exact translateOfflineP2_sizes htr ih
  | download hr hdl ih =>
    rename_i s lang b prog s'
    unfold downloadLanguagePackP2 at hdl
    split at hdl
    · exact absurd hdl (by simp)
    · simp only [Except.ok.injEq, Prod.mk.injEq] at hdl
      rw [← hdl.2.2]
      unfold p2MarkDownloaded
      exact sizes_map_pres (fun p => by split <;> rfl) (loadLanguageDictionaryP2_sizes ih)
  | remove hr hrm ih =>
    rename_i s lang b s'
    unfold removeLanguagePackP2 at hrm
    split at hrm
    · simp only [Prod.mk.injEq] at hrm
      rw [← hrm.2]
      exact ih
    · simp only [Prod.mk.injEq] at hrm
      rw [← hrm.2]
      exact sizes_map_pres (fun p => by split <;> rfl) ih
  | checkDownloaded hr hck ih =>
    rename_i s lang b s'
    rw [show s' = (isLanguagePackDownloadedP2 s lang).2 from (congrArg Prod.snd hck).symm]
    rw [isLanguagePackDownloadedP2_packs]
    exact ih
  | clear hr ih =>
    exact sizes_map_pres (fun p => rfl) ih


/-- C10. Storage summary invariant: in every reachable state of either offline
service variant, `getStorageInfo` reports a used size that is at most the total
size, a downloaded-pack count that is at most the available-pack count, and
nonnegative sizes (the pack counts are nonnegative by their type), because the
downloaded packs are a sublist of the registered packs and every reachable pack
size is nonnegative. -/
theorem storage_summary_invariant :
    (∀ s : OTStateN, ReachableN s →
      (getStorageInfoN s).usedSize ≤ (getStorageInfoN s).totalSize ∧
      (getStorageInfoN s).downloadedPacks ≤ (getStorageInfoN s).availablePacks ∧
      0 ≤ (getStorageInfoN s).usedSize ∧ 0 ≤ (getStorageInfoN s).totalSize) ∧
    (∀ s : P2State, ReachableP2 s →
      (getStorageInfoP2 s).usedSize ≤ (getStorageInfoP2 s).totalSize ∧
      (getStorageInfoP2 s).downloadedPacks ≤ (getStorageInfoP2 s).availablePacks ∧
      0 ≤ (getStorageInfoP2 s).usedSize ∧ 0 ≤ (getStorageInfoP2 s).totalSize) := by
  constructor
  · intro s hs
    have hsz := reachableN_sizes hs
    refine ⟨?_, ?_, ?_, ?_⟩
    · apply List.Sublist.sum_le_sum ((List.filter_sublist s.languagePacks).map _)
      intro a ha
      rcases List.mem_map.mp ha with ⟨p, hp, rfl⟩
      exact hsz p hp
    · exact List.length_filter_le _ _
    · apply List.sum_nonneg
      intro a ha
      rcases List.mem_map.mp ha with ⟨p, hp, rfl⟩
      exact hsz p (List.mem_of_mem_filter hp)
    · apply List.sum_nonneg
      intro a ha
      rcases List.mem_map.mp ha with ⟨p, hp, rfl⟩
      exact hsz p hp
  · intro s hs
    have hsz := reachableP2_sizes hs
    refine ⟨?_, ?_, ?_, ?_⟩
    · apply List.Sublist.sum_le_sum ((List.filter_sublist s.languagePacks).map _)
      intro a ha
      rcases List.mem_map.mp ha with ⟨p, hp, rfl⟩
      exact hsz p hp
    · exact List.length_filter_le _ _
    · apply List.sum_nonneg
      intro a ha
      rcases List.mem_map.mp ha with ⟨p, hp, rfl⟩
      exact hsz p (List.mem_of_mem_filter hp)
    · apply List.sum_nonneg
      intro a ha
      rcases List.mem_map.mp ha with ⟨p, hp, rfl⟩
      exact hsz p hp

/-- The storage invariant instantiated at the two construction states. -/
theorem storage_summary_invariant_witness :
    ((getStorageInfoN initStateN).usedSize ≤ (getStorageInfoN initStateN).totalSize ∧
      (getStorageInfoN initStateN).downloadedPacks ≤ (getStorageInfoN initStateN).availablePacks ∧
      0 ≤ (getStorageInfoN initStateN).usedSize ∧ 0 ≤ (getStorageInfoN initStateN).totalSize) ∧
    ((getStorageInfoP2 initStateP2).usedSize ≤ (getStorageInfoP2 initStateP2).totalSize ∧
      (getStorageInfoP2 initStateP2).downloadedPacks ≤ (getStorageInfoP2 initStateP2).availablePacks ∧
      0 ≤ (getStorageInfoP2 initStateP2).usedSize ∧ 0 ≤ (getStorageInfoP2 initStateP2).totalSize) :=
  ⟨storage_summary_invariant.1 initStateN ReachableN.init,
   storage_summary_invariant.2 initStateP2 ReachableP2.init⟩


/-- C6. Cache TTL, as implemented by the `OfflineTranslation.ts` variant: with the
source pack downloaded and a cached entry under the key `src-tgt-text`, an entry
younger than 24 hours is returned from the cache with the state unchanged, while
an entry at least 24 hours old is not reused — the call recomputes, and the
recomputation overwrites the entry with the fresh translation and timestamp.
(The part_002 variant's cache check has no age test; see the counterexample.) -/
theorem cache_ttl (s : OTStateN) (now : Int) (text src tgt : String) (cached : CacheEntry)
    (hdown : isLanguagePackDownloadedN s src = true)
    (hc : cacheGet s.translationCache (src ++ "-" ++ tgt ++ "-" ++ text) = some cached) :
    (now - cached.timestamp < 86400000 →
      translateOfflineN s now text src tgt = Except.ok (cached.translation, s)) ∧
    (86400000 ≤ now - cached.timestamp →
      translateOfflineN s now text src tgt = translateOfflineRecomputeN s now text src tgt ∧
      ∀ r s', translateOfflineRecomputeN s now text src tgt = Except.ok (r, s') →
        cacheGet s'.translationCache (src ++ "-" ++ tgt ++ "-" ++ text) =
          some ⟨r, if r = text then (3 : ℚ)/10 else 8/10, now⟩) := by
  have hmain : translateOfflineN s now text src tgt =
      (if now - cached.timestamp < 86400000 then Except.ok (cached.translation, s)
       else translateOfflineRecomputeN s now text src tgt) := by
    unfold translateOfflineN
    rw [hdown, hc]
    rfl
  constructor
  · intro httl
    rw [hmain, if_pos httl]
  · intro httl
    have hnot : ¬(now - cached.timestamp < 86400000) := by omega
    refine ⟨by rw [hmain, if_neg hnot], ?_⟩
    intro r s' hr
    unfold translateOfflineRecomputeN at hr
    split at hr
    · exact absurd hr (by simp)
    · simp only [Except.ok.injEq, Prod.mk.injEq] at hr
      rw [← hr.2, ← hr.1]
      exact cacheGet_cacheSet _ _ _


/-- A concrete `OfflineTranslation.ts` state: the Nepali pack downloaded with its
demo dictionary, and one cache entry written at time 0. -/
def sttl : OTStateN :=
  ⟨[⟨"ne", "Nepali", "नेपाली", "1.0.0", 31/2, "/language-packs/nepali-en.pack", true, demoNeN⟩],
   [("ne-en-पानी", ⟨"CACHED", 1, 0⟩)]⟩

/-- The TTL behaviour at a concrete state: at `now = 1000` (fresh) the cached
string is returned with the state unchanged; at `now = 90000000` (25 hours) the
call is the recomputation. -/
theorem cache_ttl_witness :
    translateOfflineN sttl 1000 "पानी" "ne" "en" = Except.ok ("CACHED", sttl) ∧
    translateOfflineN sttl 90000000 "पानी" "ne" "en" =
      translateOfflineRecomputeN sttl 90000000 "पानी" "ne" "en" := by
  constructor
  · exact (cache_ttl sttl 1000 "पानी" "ne" "en" ⟨"CACHED", 1, 0⟩ (by decide)
      (by decide)).1 (by decide)
  · exact ((cache_ttl sttl 90000000 "पानी" "ne" "en" ⟨"CACHED", 1, 0⟩ (by decide)
      (by decide)).2 (by decide)).1

/-- A part_002 state holding a cache entry written at time 0. -/
def sttl2 : P2State :=
  ⟨[⟨"ne", "Nepali", "नेपाली", "1.0.0", 31/2, "/language-packs/nepali-en.pack", false, []⟩],
   [("पानी_ne_en", ⟨"STALE", 9/10, 0⟩)], []⟩

/-- The part_002 variant returns a 25-hour-old cache entry unchanged: its cache
check has no timestamp comparison, so the claimed 24-hour TTL does not hold
there. -/
theorem cache_ttl_counterexample :
    (86400000 : Int) ≤ 90000000 - 0 ∧
    translateOfflineP2 sttl2 90000000 "पानी" "ne" "en" = ("STALE", sttl2) := by
  constructor
  · decide
  · rfl


/-- A positive downloaded-check implies the pack exists. -/
theorem downloaded_isSome {s : OTStateN} {src : String}
    (hdown : isLanguagePackDownloadedN s src = true) : (getPackN s src).isSome := by
  unfold isLanguagePackDownloadedN at hdown
  split at hdown
  · next heq => rw [heq]; rfl
  · exact absurd hdown (by simp)

/-- The recompute stage succeeds whenever the source pack exists. -/
theorem recomputeN_isOk {s : OTStateN} {now : Int} {text src tgt : String}
    (hp : (getPackN s src).isSome) :
    (translateOfflineRecomputeN s now text src tgt).isOk = true := by
  unfold translateOfflineRecomputeN
  split
  · next heq => rw [heq] at hp; exact absurd hp (by simp)
  · rfl

/-- With the source pack downloaded, `translateOffline` of the
`OfflineTranslation.ts` variant succeeds on every input. -/
theorem translateOfflineN_isOk_of_downloaded {s : OTStateN} {src : String}
    (hdown : isLanguagePackDownloadedN s src = true) (now : Int) (text tgt : String) :
    (translateOfflineN s now text src tgt).isOk = true := by
  have hp : (getPackN s src).isSome := downloaded_isSome hdown
  unfold translateOfflineN
  rw [hdown, if_neg (by simp)]
  split
  · split
    · rfl
    · exact recomputeN_isOk hp
  · exact recomputeN_isOk hp

/-- `loadLanguageDictionary` keeps an existing pack in place. -/
theorem loadN_pack_isSome {s : OTStateN} {lang : String}
    (h : (getPackN s lang).isSome) :
    (getPackN (loadLanguageDictionaryN s lang) lang).isSome := by
  unfold loadLanguageDictionaryN
  split
  · exact h
  · split
    · rename_i dict hdict
      unfold getPackN at h ⊢
      rw [show ({ s with languagePacks := s.languagePacks.map (fun p =>
          if p.code = lang then { p with dictionary := dict } else p) } : OTStateN).languagePacks
        = s.languagePacks.map (fun p =>
          if p.code = lang then { p with dictionary := dict } else p) from rfl]
      rw [find_code_map _ _ _ (fun p => by split <;> rfl)]
      simpa using h
    · exact h

/-- A successful download leaves the language marked as downloaded. -/
theorem downloadN_ok_downloaded {s : OTStateN} {lang : String} {b : Bool}
    {prog : List ℚ} {s' : OTStateN}
    (hdl : downloadLanguagePackN s lang = Except.ok (b, prog, s')) :
    isLanguagePackDownloadedN s' lang = true := by
  unfold downloadLanguagePackN at hdl
  split at hdl
  · exact absurd hdl (by simp)
  · next p heq =>
    simp only [Except.ok.injEq, Prod.mk.injEq] at hdl
    obtain ⟨hb, hprog, hstate⟩ := hdl
    have hs1 : (getPackN (loadLanguageDictionaryN s lang) lang).isSome :=
      loadN_pack_isSome (by rw [heq]; rfl)
    rcases Option.isSome_iff_exists.mp hs1 with ⟨q, hq⟩
    have hqc : q.code = lang := by simpa using List.find?_some hq
    rw [← hstate]
    unfold isLanguagePackDownloadedN
    have hfind : getPackN
        { loadLanguageDictionaryN s lang with
          languagePacks := (loadLanguageDictionaryN s lang).languagePacks.map
            (fun p => if p.code = lang then { p with isDownloaded := true } else p) } lang
        = some { q with isDownloaded := true } := by
      unfold getPackN
      rw [show ({ loadLanguageDictionaryN s lang with
          languagePacks := (loadLanguageDictionaryN s lang).languagePacks.map
            (fun p => if p.code = lang then { p with isDownloaded := true } else p) } :
            OTStateN).languagePacks
        = (loadLanguageDictionaryN s lang).languagePacks.map
            (fun p => if p.code = lang then { p with isDownloaded := true } else p) from rfl]
      rw [find_code_map _ _ _ (fun p => by split <;> rfl)]
      rw [show (loadLanguageDictionaryN s lang).languagePacks.find?
          (fun p => p.code = lang) = some q from hq]
      simp [hqc]
    rw [hfind]


/-- C7. PackNotInstalled propagation, as implemented by the `OfflineTranslation.ts`
variant: calling `translateOffline` with the source pack not downloaded returns the
explicit `Language pack not downloaded` error; a completed `downloadLanguagePack`
returns `true` with its progress sequence ending at exactly 100, after which the
pack is marked downloaded and every `translateOffline` call for that source
language succeeds.  (The part_002 variant never raises; see the counterexample.) -/
theorem pack_not_installed_propagation :
    (∀ (s : OTStateN) (now : Int) (text src tgt : String),
      isLanguagePackDownloadedN s src = false →
      translateOfflineN s now text src tgt =
        Except.error ("Language pack not downloaded: " ++ src)) ∧
    (∀ (s : OTStateN) (lang : String) (b : Bool) (prog : List ℚ) (s' : OTStateN),
      downloadLanguagePackN s lang = Except.ok (b, prog, s') →
      b = true ∧ prog.getLast? = some 100 ∧
      isLanguagePackDownloadedN s' lang = true ∧
      ∀ (now : Int) (text tgt : String), (translateOfflineN s' now text lang tgt).isOk = true) := by
  constructor
  · intro s now text src tgt h
    unfold translateOfflineN
    rw [h]
    rfl
  · intro s lang b prog s' hdl
    have hdown : isLanguagePackDownloadedN s' lang = true := downloadN_ok_downloaded hdl
    unfold downloadLanguagePackN at hdl
    split at hdl
    · exact absurd hdl (by simp)
    · have h2 := Except.ok.inj hdl
      have hb : true = b := congrArg Prod.fst h2
      have hprog : (List.range 101).map (fun (i : Nat) => (i : ℚ) / 100 * 100) = prog :=
        congrArg (fun x => x.2.1) h2
      refine ⟨hb.symm, ?_, hdown, fun now text tgt =>
        translateOfflineN_isOk_of_downloaded hdown now text tgt⟩
      rw [← hprog, List.getLast?_map]
      rw [show (List.range 101).getLast? = some 100 from rfl]
      simp only [Option.map_some', Option.some.injEq]
      norm_num


/-- The `OfflineTranslation.ts` construction state (no pack downloaded). -/
def s7w : OTStateN := ⟨[initPackNeN, initPackSiN], []⟩

/-- The state after downloading the Nepali pack from construction. -/
def s7dl : OTStateN :=
  ⟨[⟨"ne", "Nepali", "नेपाली", "1.0.0", 31/2, "/language-packs/nepali-en.pack", true, demoNeN⟩,
    initPackSiN], []⟩

/-- The not-installed error and the post-download success at concrete inputs. -/
theorem pack_not_installed_propagation_witness :
    translateOfflineN s7w 0 "पानी" "ne" "en" =
      Except.error "Language pack not downloaded: ne" ∧
    ((List.range 101).map (fun (i : Nat) => (i : ℚ) / 100 * 100)).getLast? = some 100 ∧
    isLanguagePackDownloadedN s7dl "ne" = true ∧
    (translateOfflineN s7dl 7 "पानी" "ne" "en").isOk = true := by
  refine ⟨?_, ?_, ?_, ?_⟩
  · exact (pack_not_installed_propagation.1 s7w 0 "पानी" "ne" "en" (by decide)).trans rfl
  · exact (pack_not_installed_propagation.2 s7w "ne" true _ s7dl (by rfl)).2.1
  · exact (pack_not_installed_propagation.2 s7w "ne" true _ s7dl (by rfl)).2.2.1
  · exact (pack_not_installed_propagation.2 s7w "ne" true _ s7dl (by rfl)).2.2.2 7 "पानी" "en"

/-- A part_002 state whose Nepali pack is not downloaded. -/
def s7p2 : P2State :=
  ⟨[⟨"ne", "Nepali", "नेपाली", "1.0.0", 31/2, "/language-packs/nepali-en.pack", false, []⟩],
   [], []⟩

/-- The part_002 variant does not raise for a non-downloaded source pack: its
`translateOffline` force-loads the dictionary and answers `Water`, so the claimed
PackNotInstalled error is never surfaced by this variant's translate entry
point. -/
theorem pack_not_installed_propagation_counterexample :
    (isLanguagePackDownloadedP2 s7p2 "ne").1 = false ∧
    (translateOfflineP2 s7p2 1000 "पानी" "ne" "en").1 = "Water" := by
  constructor
  · decide
  · rfl


/-- C8. Offline word fallback order, as implemented by part_002: in the Nepali
word helper a token with no whole-token entry (nor lower-cased entry) goes through
compound decomposition first, and only when decomposition fails is affix matching
applied, the token passing through unchanged when that fails too; the Sinhala word
helper instead stops after decomposition — it applies no affix matching at all
(see the counterexample). -/
theorem offline_word_fallback_order :
    (∀ (d : Lexicon) (w : List Char) (e : String),
      getT d ⟨w⟩ = none → getT d (lowerS ⟨w⟩) = none → decomposeFirst d w = some e →
      neWordMap d w = e) ∧
    (∀ (d : Lexicon) (w : List Char),
      getT d ⟨w⟩ = none → getT d (lowerS ⟨w⟩) = none → decomposeFirst d w = none →
      neWordMap d w = (affixFirst d w).getD ⟨w⟩) ∧
    (∀ (d : Lexicon) (w : List Char) (e : String),
      getT d ⟨w⟩ = none → decomposeFirst d w = some e → siWordMap d w = e) ∧
    (∀ (d : Lexicon) (w : List Char),
      getT d ⟨w⟩ = none → decomposeFirst d w = none → siWordMap d w = ⟨w⟩) := by
  refine ⟨?_, ?_, ?_, ?_⟩
  · intro d w e h1 h2 h3
    unfold neWordMap
    rw [h1, h2, h3]
  · intro d w h1 h2 h3
    unfold neWordMap
    rw [h1, h2, h3]
    cases haf : affixFirst d w <;> rfl
  · intro d w e h1 h3
    unfold siWordMap
    rw [h1, h3]
  · intro d w h1 h3
    unfold siWordMap
    rw [h1, h3]


set_option maxRecDepth 40000 in
/-- The fallback order at concrete tokens: a Nepali token reaching affix matching,
and a Sinhala token translated by decomposition. -/
theorem offline_word_fallback_order_witness :
    neWordMap neToEnDict "Xप्रेम".data = (affixFirst neToEnDict "Xप्रेम".data).getD "Xप्रेम" ∧
    siWordMap siToEnDict "වතුරකෑම".data = "Water Food" := by
  constructor
  · exact offline_word_fallback_order.2.1 neToEnDict "Xप्रेम".data
      (by decide) (by decide) (by decide)
  · exact offline_word_fallback_order.2.2.1 siToEnDict "වතුරකෑම".data "Water Food"
      (by decide) (by decide)

set_option maxRecDepth 40000 in
/-- The Sinhala word helper never applies affix matching: for this token
decomposition fails and a dictionary key longer than 3 characters occurs inside
the token — affix matching would give `XLove` — yet the token is returned
unchanged, contradicting the claimed fallback chain for the Sinhala half of the
Offline Pack Manager. -/
theorem offline_word_fallback_order_counterexample :
    getT siToEnDict "Xආදරය" = none ∧
    decomposeFirst siToEnDict "Xආදරය".data = none ∧
    affixFirst siToEnDict "Xආදරය".data = some "XLove" ∧
    translateSinhalaWordsToEnglishP2 "Xආදරය" siToEnDict = "Xආදරය" := by
  refine ⟨by decide, by decide, by decide, by decide⟩


/-- C9. Pack removal prunes exactly that language's cache, as implemented by the
`OfflineTranslation.ts` variant (whose cache keys `src-tgt-text` do start with the
language prefix): for an existing pack the call returns `true`, the pack is left
not downloaded with an empty dictionary, every other pack survives unchanged,
every cache key starting with `lang-` is gone and every other key reads exactly as
before.  (The part_002 variant prunes nothing because its keys have the shape
`text_src_tgt`; see the counterexample.) -/
theorem pack_removal_prune_scope (s : OTStateN) (lang : String) (p : Pack)
    (hp : getPackN s lang = some p) :
    (removeLanguagePackN s lang).1 = true ∧
    (∃ q, getPackN (removeLanguagePackN s lang).2 lang = some q ∧
       q.isDownloaded = false ∧ q.dictionary = []) ∧
    (∀ q ∈ s.languagePacks, q.code ≠ lang →
       q ∈ (removeLanguagePackN s lang).2.languagePacks) ∧
    (∀ k, startsWithS k (lang ++ "-") = true →
       cacheGet (removeLanguagePackN s lang).2.translationCache k = none) ∧
    (∀ k, startsWithS k (lang ++ "-") = false →
       cacheGet (removeLanguagePackN s lang).2.translationCache k =
         cacheGet s.translationCache k) := by
  have hrm : removeLanguagePackN s lang =
      (true,
        ⟨s.languagePacks.map (fun q =>
            if q.code = lang then { q with isDownloaded := false, dictionary := [] } else q),
          s.translationCache.filter (fun kv => !(startsWithS kv.1 (lang ++ "-")))⟩) := by
    unfold removeLanguagePackN
    rw [hp]
  have hpc : p.code = lang := by
    have := List.find?_some hp
    simpa using this
  refine ⟨by rw [hrm], ?_, ?_, ?_, ?_⟩
  · refine ⟨{ p with isDownloaded := false, dictionary := [] }, ?_, rfl, rfl⟩
    rw [hrm]
    unfold getPackN
    rw [show ((true,
        (⟨s.languagePacks.map (fun q =>
            if q.code = lang then { q with isDownloaded := false, dictionary := [] } else q),
          s.translationCache.filter (fun kv => !(startsWithS kv.1 (lang ++ "-")))⟩ :
          OTStateN)).2).languagePacks
      = s.languagePacks.map (fun q =>
          if q.code = lang then { q with isDownloaded := false, dictionary := [] } else q)
      from rfl]
    rw [find_code_map _ _ _ (fun q => by split <;> rfl)]
    rw [show s.languagePacks.find? (fun q => q.code = lang) = some p from hp]
    simp [hpc]
  · intro q hq hqc
    rw [hrm]
    have : (fun r => if r.code = lang then
        { r with isDownloaded := false, dictionary := [] } else r) q = q := by
      simp only [if_neg hqc]
    rw [show ((true,
        (⟨s.languagePacks.map (fun r =>
            if r.code = lang then { r with isDownloaded := false, dictionary := [] } else r),
          s.translationCache.filter (fun kv => !(startsWithS kv.1 (lang ++ "-")))⟩ :
          OTStateN)).2).languagePacks
      = s.languagePacks.map (fun r =>
          if r.code = lang then { r with isDownloaded := false, dictionary := [] } else r)
      from rfl]
    rw [← this]
    exact List.mem_map_of_mem _ hq
  · intro k hk
    rw [hrm]
    unfold cacheGet
    rw [show ((true,
        (⟨s.languagePacks.map (fun r =>
            if r.code = lang then { r with isDownloaded := false, dictionary := [] } else r),
          s.translationCache.filter (fun kv => !(startsWithS kv.1 (lang ++ "-")))⟩ :
          OTStateN)).2).translationCache
      = s.translationCache.filter (fun kv => !(startsWithS kv.1 (lang ++ "-")))
      from rfl]
    rw [filter_key_filter_drop s.translationCache (lang ++ "-") k hk]
    rfl
  · intro k hk
    rw [hrm]
    unfold cacheGet
    rw [show ((true,
        (⟨s.languagePacks.map (fun r =>
            if r.code = lang then { r with isDownloaded := false, dictionary := [] } else r),
          s.translationCache.filter (fun kv => !(startsWithS kv.1 (lang ++ "-")))⟩ :
          OTStateN)).2).translationCache
      = s.translationCache.filter (fun kv => !(startsWithS kv.1 (lang ++ "-")))
      from rfl]
    rw [filter_key_filter_keep s.translationCache (lang ++ "-") k hk]


/-- An `OfflineTranslation.ts` state with two downloaded packs and one cache entry
for each language. -/
def s9n : OTStateN :=
  ⟨[⟨"ne", "Nepali", "नेपाली", "1.0.0", 31/2, "/language-packs/nepali-en.pack", true, demoNeN⟩,
    ⟨"si", "Sinhala", "සිංහල", "1.0.0", 123/10, "/language-packs/sinhala-en.pack", true, demoSiN⟩],
   [("ne-en-पानी", ⟨"Water", 1, 0⟩), ("si-en-වතුර", ⟨"Water", 1, 0⟩)]⟩

/-- Pruning at a concrete state: removing the Nepali pack keeps the Sinhala cache
entry readable and deletes the Nepali one. -/
theorem pack_removal_prune_scope_witness :
    (removeLanguagePackN s9n "ne").1 = true ∧
    cacheGet (removeLanguagePackN s9n "ne").2.translationCache "ne-en-पानी" = none ∧
    cacheGet (removeLanguagePackN s9n "ne").2.translationCache "si-en-වතුර" =
      cacheGet s9n.translationCache "si-en-වතුර" := by
  refine ⟨?_, ?_, ?_⟩
  · exact (pack_removal_prune_scope s9n "ne"
      ⟨"ne", "Nepali", "नेपाली", "1.0.0", 31/2, "/language-packs/nepali-en.pack", true, demoNeN⟩
      (by rfl)).1
  · exact (pack_removal_prune_scope s9n "ne"
      ⟨"ne", "Nepali", "नेपाली", "1.0.0", 31/2, "/language-packs/nepali-en.pack", true, demoNeN⟩
      (by rfl)).2.2.2.1 "ne-en-पानी" (by decide)
  · exact (pack_removal_prune_scope s9n "ne"
      ⟨"ne", "Nepali", "नेपाली", "1.0.0", 31/2, "/language-packs/nepali-en.pack", true, demoNeN⟩
      (by rfl)).2.2.2.2 "si-en-වතුර" (by decide)

/-- A part_002 state whose Nepali pack is downloaded with its demo dictionary. -/
def s9p2 : P2State :=
  ⟨[⟨"ne", "Nepali", "नेपाली", "1.0.0", 31/2, "/language-packs/nepali-en.pack", true, demoNeP2⟩],
   [], []⟩

/-- In part_002, removing a language does not delete that language's cache
entries: the ne→en translation of `पानी` stores its entry under the key
`पानी_ne_en` (text first), `removeLanguagePack "ne"` then prunes keys starting
with `ne-` and returns `true` — and the entry is still readable afterwards. -/
theorem pack_removal_prune_scope_counterexample :
    (translateOfflineP2 s9p2 0 "पानी" "ne" "en").2.translationCache.map Prod.fst =
      ["पानी_ne_en"] ∧
    (removeLanguagePackP2 (translateOfflineP2 s9p2 0 "पानी" "ne" "en").2 "ne").1 = true ∧
    cacheGet (removeLanguagePackP2
        (translateOfflineP2 s9p2 0 "पानी" "ne" "en").2 "ne").2.translationCache "पानी_ne_en" =
      some ⟨"Water", 1, 0⟩ := by
  refine ⟨by decide, by decide, by decide⟩


/-! ## C1: prototype-aware refinement of the fallback exact-match path

The fallback dictionaries are plain object literals, so the guarded property
reads `if (translations[cleanText]) return translations[cleanText]` also consult
`Object.prototype`: for a key such as `constructor` the read yields the inherited
`Object` constructor function — truthy and not a string — which the service
returns raw from the exact-match step, and which the pivot's second leg then
feeds to `text.trim()`, throwing a `TypeError`.  The refinement below models the
value of such a read, the two guarded exact-match reads, and the `translate`
entry point over them; deeper lookups (word- and sentence-wise) interpolate their
results into template strings and joins, where an inherited hit is stringified
rather than returned raw, so they stay string-valued and are delegated to the
string model. -/

end ShabdX
